import Mathlib

/-!
Verification development for the Agent Strategy Lab backend.

This file gives a shallow embedding, in Lean 4, of the judging, confidence-gate,
learning and orchestration core of the repository
(`backend/src/skills/registry.ts` judge engine and the orchestrator module),
and proves the behavioural properties stated in the specification against it.

Modelling conventions:
* JavaScript `number` values are modelled as exact rationals (`ℚ`); `Math.round`
  is `jsRound` (round half towards positive infinity, as in JS) and
  `Number(x.toFixed(d))` is `toFixedQ d x` (the ECMAScript `toFixed` picks the
  closest `n / 10^d`, the larger one on ties, which is `⌊x·10^d + 1/2⌋ / 10^d`).
* Strings are Lean `String`s; the few regular expressions of the source are
  expanded into their (finite) phrase alternatives with explicit word-boundary
  checks, mirroring `\b` semantics over `[A-Za-z0-9_]` word characters.
* Database and network effects are made explicit: the orchestrator is a state
  transformer over an `OrchStore`, persistence operations either apply their
  effect or fail according to injected `DbFlags`, and the generative judge call
  is an oracle argument (`Option ParsedJudgeResponse`; `none` models an
  unreachable / unparsable judge).
* Fields that no proved property mentions (free-text reasoning strings,
  timestamps, evidence quotes, log output) are omitted from the records and
  noted at each definition.
-/

/- Core `Rat` arithmetic is marked irreducible, which blocks `decide` on the
many concrete rational computations below; restore the default reducibility. -/
attribute [local semireducible] Rat.mul Rat.add Rat.sub Rat.inv

/-- JavaScript `Math.round`: round half towards positive infinity. -/
def jsRound (q : ℚ) : ℤ := ⌊q + 1 / 2⌋

/-- JavaScript `Number(x.toFixed(d))` on exact rationals: the closest multiple
of `10 ^ (-d)`, preferring the larger one on ties. -/
def toFixedQ (d : ℕ) (q : ℚ) : ℚ := (jsRound (q * 10 ^ d) : ℚ) / 10 ^ d

/-- A comparator on rationals mirroring a JS numeric comparator
`(a, b) => a - b` (negative ↦ `lt`, zero ↦ `eq`, positive ↦ `gt`). -/
def qCmp (a b : ℚ) : Ordering :=
  if a < b then .lt else if b < a then .gt else .eq

/-- Comparator on integers, same convention as `qCmp`. -/
def iCmp (a b : ℤ) : Ordering :=
  if a < b then .lt else if b < a then .gt else .eq

/-- Comparator on strings, modelling `String.prototype.localeCompare` for the
ASCII agent ids used by the system (plain lexicographic order). -/
def sCmp (a b : String) : Ordering :=
  if a < b then .lt else if b < a then .gt else .eq

/-- Stable insertion of `a` into `l` under comparator `cmp`: `a` goes before
the first element it does not compare `gt` to.  This is the ordering produced
by the (stable, per ES2019) JavaScript `Array.prototype.sort`. -/
def insertByCmp {α : Type} (cmp : α → α → Ordering) (a : α) : List α → List α
  | [] => [a]
  | b :: l => if cmp a b ≠ .gt then a :: b :: l else b :: insertByCmp cmp a l

/-- Stable sort by comparator (insertion sort), modelling JS `Array.sort`. -/
def sortByCmp {α : Type} (cmp : α → α → Ordering) : List α → List α
  | [] => []
  | a :: l => insertByCmp cmp a (sortByCmp cmp l)

/-- Judging criteria weight vector (registry.ts `JudgeWeights`). -/
structure JudgeWeights where
  accuracy : ℚ
  completeness : ℚ
  clarity : ℚ
  insight : ℚ
deriving DecidableEq, Repr

/-- A possibly missing / incomplete weight vector, modelling the TypeScript
`Partial<JudgeWeights> | undefined` argument of `normalizeJudgeWeights`
(`none` fields are `undefined`; `NaN`/`Infinity` inputs have no rational
counterpart and are outside this model — for rationals the source's
`Number.isFinite` guard is always true). -/
structure JudgeWeightsInput where
  accuracy : Option ℚ
  completeness : Option ℚ
  clarity : Option ℚ
  insight : Option ℚ
deriving DecidableEq, Repr

/-- registry.ts `DEFAULT_CRITERIA_WEIGHTS` = (0.3, 0.3, 0.2, 0.2). -/
def DEFAULT_CRITERIA_WEIGHTS : JudgeWeights :=
  { accuracy := 3 / 10, completeness := 3 / 10, clarity := 2 / 10, insight := 2 / 10 }

/-- The `merged` stage of `normalizeJudgeWeights`: fill each missing
component from the defaults. -/
def mergedWeights (input : Option JudgeWeightsInput) : JudgeWeights :=
  { accuracy := (input.bind (·.accuracy)).getD DEFAULT_CRITERIA_WEIGHTS.accuracy
    completeness := (input.bind (·.completeness)).getD DEFAULT_CRITERIA_WEIGHTS.completeness
    clarity := (input.bind (·.clarity)).getD DEFAULT_CRITERIA_WEIGHTS.clarity
    insight := (input.bind (·.insight)).getD DEFAULT_CRITERIA_WEIGHTS.insight }

/-- The `safe` stage of `normalizeJudgeWeights`: components clamped to be
nonnegative (and finite, which every rational is). -/
def safeWeights (input : Option JudgeWeightsInput) : JudgeWeights :=
  let merged := mergedWeights input
  { accuracy := if 0 ≤ merged.accuracy then merged.accuracy else 0
    completeness := if 0 ≤ merged.completeness then merged.completeness else 0
    clarity := if 0 ≤ merged.clarity then merged.clarity else 0
    insight := if 0 ≤ merged.insight then merged.insight else 0 }

/-- registry.ts `normalizeJudgeWeights`: merge with defaults, clamp negative
(and, in JS, non-finite) components to 0, fall back to the defaults when the
safe components sum to zero or less, otherwise divide by the sum and round
each component to 6 decimal places (`Number((v / total).toFixed(6))`). -/
def normalizeJudgeWeights (input : Option JudgeWeightsInput) : JudgeWeights :=
  let safe := safeWeights input
  let total := safe.accuracy + safe.completeness + safe.clarity + safe.insight
  if total ≤ 0 then DEFAULT_CRITERIA_WEIGHTS
  else
    { accuracy := toFixedQ 6 (safe.accuracy / total)
      completeness := toFixedQ 6 (safe.completeness / total)
      clarity := toFixedQ 6 (safe.clarity / total)
      insight := toFixedQ 6 (safe.insight / total) }

/-- Sum of the four components of a weight vector. -/
def JudgeWeights.sum (w : JudgeWeights) : ℚ :=
  w.accuracy + w.completeness + w.clarity + w.insight

/-- The four metric values of one scored agent
(the `Pick<JudgeScore, 'accuracy' | 'completeness' | 'clarity' | 'insight'>`
argument of the source's weighted-total helpers). -/
structure MetricValues where
  accuracy : ℚ
  completeness : ℚ
  clarity : ℚ
  insight : ℚ
deriving DecidableEq, Repr

/-- registry.ts `weightedTotal`: `Math.round(weights · metrics * 4)`,
an integer in [0,40] when metrics lie in [0,10] and weights sum to 1. -/
def weightedTotal (w : JudgeWeights) (m : MetricValues) : ℤ :=
  jsRound ((m.accuracy * w.accuracy + m.completeness * w.completeness +
    m.clarity * w.clarity + m.insight * w.insight) * 4)

/-- One agent's judge score (registry.ts `JudgeScore`).  The free-text
`reasoning`, the `metricEvidence` quotes and the `objectiveAdjustment`
audit payload are omitted: no property proved here mentions them. -/
structure JudgeScore where
  agentId : String
  accuracy : ℚ
  completeness : ℚ
  clarity : ℚ
  insight : ℚ
  total : ℤ
  baseTotal : ℤ
  diversityPenaltyApplied : Bool
  maxSimilarity : ℚ
deriving DecidableEq, Repr

/-- registry.ts `fallbackScore`: a flat 5/10 on every metric with the weighted
total as both `total` and `baseTotal` (the textual reason is omitted). -/
def fallbackScore (agentId : String) (w : JudgeWeights) : JudgeScore :=
  let base := weightedTotal w { accuracy := 5, completeness := 5, clarity := 5, insight := 5 }
  { agentId := agentId, accuracy := 5, completeness := 5, clarity := 5, insight := 5
    total := base, baseTotal := base, diversityPenaltyApplied := false, maxSimilarity := 0 }

/-- registry.ts `STOP_WORDS`. -/
def STOP_WORDS : List String :=
  ["the", "and", "for", "that", "with", "this", "from", "into", "your", "their", "have",
   "will", "would", "could", "there", "what", "when", "where", "which", "about", "because",
   "while", "should", "after", "before", "than", "then", "they", "them", "were", "been",
   "being", "also", "over", "under", "such", "only", "very", "much", "more", "most"]

/-- JavaScript regex `\s` whitespace (ASCII part). -/
def jsIsSpace (c : Char) : Bool :=
  c = ' ' || c = '\t' || c = '\n' || c = '\r' || c = '\x0b' || c = '\x0c'

/-- JS `String.prototype.trim` (ASCII whitespace), implemented over the
character list so that it evaluates inside the kernel. -/
def jsTrim (s : String) : String :=
  String.mk (((s.data.dropWhile jsIsSpace).reverse.dropWhile jsIsSpace).reverse)

/-- JS `String.prototype.toLowerCase` for the ASCII strings this system
compares, implemented over the character list. -/
def jsStrToLower (s : String) : String :=
  String.mk (s.data.map Char.toLower)

/-- A character kept by the tokenizer after lower-casing: `[a-z0-9]`. -/
def isLowerAlnumChar (c : Char) : Bool :=
  decide (('a' ≤ c ∧ c ≤ 'z') ∨ ('0' ≤ c ∧ c ≤ '9'))

/-- Split a character list into maximal non-whitespace runs (the effect of the
source's `split(/\s+/)`; JS's possible leading empty token is dropped here,
which is observationally equal after the `length > 2` filter that follows). -/
def splitTokensAux : List Char → List Char → List String
  | [], acc => if acc.isEmpty then [] else [String.mk acc.reverse]
  | c :: rest, acc =>
    if jsIsSpace c then
      if acc.isEmpty then splitTokensAux rest []
      else String.mk acc.reverse :: splitTokensAux rest []
    else splitTokensAux rest (c :: acc)

/-- registry.ts `toTokenSet`: lower-case, replace every character outside
`[a-z0-9\s]` by a space, split on whitespace, keep tokens of length > 2 that
are not stop-words, and deduplicate (the JS `Set`).  Lean's `Char.toLower`
only lowers ASCII letters; non-ASCII letters are erased by the replacement
step in both the source and this model. -/
def toTokenSet (value : String) : List String :=
  let lowered := value.data.map Char.toLower
  let replaced := lowered.map (fun c => if isLowerAlnumChar c || jsIsSpace c then c else ' ')
  ((splitTokensAux replaced []).filter
    (fun t => decide (t.length > 2) && !(STOP_WORDS.contains t))).dedup

/-- registry.ts `jaccardSimilarity` on deduplicated token lists. -/
def jaccardSimilarity (left right : List String) : ℚ :=
  if left.length = 0 ∧ right.length = 0 then 1
  else if left.length = 0 ∨ right.length = 0 then 0
  else
    let inter := (left.filter (fun t => right.contains t)).length
    let uni := left.length + right.length - inter
    if uni = 0 then 0 else (inter : ℚ) / (uni : ℚ)

/-- One reasoning step of an agent run (`ReasoningStep`; `timestamp` omitted). -/
structure ReasoningStep where
  step : ℕ
  thought : String
  confidence : ℚ
deriving DecidableEq, Repr

/-- Tool-call telemetry summary (`AgentTelemetry`; the optional
`firstToolName`/`firstToolTurn` fields are omitted — unused by any claim). -/
structure AgentTelemetry where
  toolCallCount : ℕ
  successfulToolCalls : ℕ
  verificationSteps : ℕ
  usedSearchFirst : Bool
  toolSequence : List String
deriving DecidableEq, Repr

/-- A JSON value, for the untyped `input` payload of a skill tool call. -/
inductive Json where
  | null : Json
  | bool (b : Bool) : Json
  | num (q : ℚ) : Json
  | str (s : String) : Json
  | arr (items : List Json) : Json
  | obj (fields : List (String × Json)) : Json
deriving BEq, Repr

/-- One skill tool-call record (`SkillToolCallRecord`; `durationMs`,
`turnIndex`, `callIndex`, `summary`, `timestamp` omitted — no claim uses
them). -/
structure SkillToolCallRecord where
  name : String
  success : Bool
  input : Option Json
deriving BEq, Repr

/-- One agent execution outcome (`AgentRunResult` of the agent runner). -/
structure AgentRunResult where
  agentId : String
  response : String
  reasoning : List ReasoningStep
  tokensUsed : ℕ
  timeMs : ℕ
  success : Bool
  error : Option String
  persona : String
  skillUsage : List SkillToolCallRecord
  telemetry : AgentTelemetry
deriving BEq, Repr

/-- JS `Map.get` on an insertion-ordered association list. -/
def alistGet {α : Type} (m : List (String × α)) (k : String) : Option α :=
  (m.find? (fun p => p.1 = k)).map (·.2)

/-- JS `Map.set` on an insertion-ordered association list: overwrite the
existing binding in place, else append. -/
def alistSet {α : Type} (m : List (String × α)) (k : String) (v : α) :
    List (String × α) :=
  if (m.find? (fun p => p.1 = k)).isSome then
    m.map (fun p => if p.1 = k then (k, v) else p)
  else m ++ [(k, v)]

/-- The similarity signal text of one agent:
`` `${result.response}\n${result.reasoning.map(s => s.thought).join('\n')}` ``. -/
def similaritySignal (r : AgentRunResult) : String :=
  r.response ++ "\n" ++ String.intercalate "\n" (r.reasoning.map (·.thought))

/-- The `tokenSets` map of `applyDiversityPenalty`, keyed by agent id. -/
def tokenSetsOf (successfulResults : List AgentRunResult) :
    List (String × List String) :=
  successfulResults.foldl
    (fun m r => alistSet m r.agentId (toTokenSet (similaritySignal r))) []

/-- Index pairs `(i, j)` with `i < j < n`, in the source's loop order. -/
def indexPairs (n : ℕ) : List (ℕ × ℕ) :=
  (List.range n).flatMap
    (fun i => ((List.range n).filter (fun j => i < j)).map (fun j => (i, j)))

/-- The `similarityByAgent` map of `applyDiversityPenalty`: for every pair of
successful agents, fold the pairwise Jaccard similarity into each side's
running maximum. -/
def similarityByAgent (successfulResults : List AgentRunResult) :
    List (String × ℚ) :=
  let ts := tokenSetsOf successfulResults
  (indexPairs successfulResults.length).foldl
    (fun m ij =>
      match successfulResults.get? ij.1, successfulResults.get? ij.2 with
      | some left, some right =>
        let sim := jaccardSimilarity ((alistGet ts left.agentId).getD [])
          ((alistGet ts right.agentId).getD [])
        let m1 := alistSet m left.agentId (max ((alistGet m left.agentId).getD 0) sim)
        alistSet m1 right.agentId (max ((alistGet m1 right.agentId).getD 0) sim)
      | _, _ => m)
    []

/-- registry.ts `DIVERSITY_SIMILARITY_THRESHOLD` = 0.72. -/
def DIVERSITY_SIMILARITY_THRESHOLD : ℚ := 72 / 100

/-- registry.ts `DIVERSITY_PENALTY_FACTOR` = 0.8. -/
def DIVERSITY_PENALTY_FACTOR : ℚ := 8 / 10

/-- registry.ts `applyDiversityPenalty`: record each score's maximum
cross-agent similarity rounded to 4 decimals, and when it reaches the 0.72
threshold replace `total` by `max(0, round(baseTotal * 0.8))`. -/
def applyDiversityPenalty (scores : List JudgeScore)
    (successfulResults : List AgentRunResult) : List JudgeScore :=
  let simMap := similarityByAgent successfulResults
  scores.map (fun score =>
    let maxSimilarity := toFixedQ 4 ((alistGet simMap score.agentId).getD 0)
    let penaltyApplies : Bool := decide (DIVERSITY_SIMILARITY_THRESHOLD ≤ maxSimilarity)
    let penalizedTotal : ℤ :=
      if penaltyApplies then
        max 0 (jsRound ((score.baseTotal : ℚ) * DIVERSITY_PENALTY_FACTOR))
      else score.baseTotal
    { score with
        total := penalizedTotal
        diversityPenaltyApplied := penaltyApplies
        maxSimilarity := maxSimilarity })

/-- The winner-resolution comparator of registry.ts `resolveWinner` (and the
orchestrator's identical copy): total desc, then accuracy desc, completeness
desc, insight desc, and agent id asc (`localeCompare`, modelled as plain
lexicographic comparison for the ASCII agent ids). -/
def scoreCmp (a b : JudgeScore) : Ordering :=
  (iCmp b.total a.total).then
    ((qCmp b.accuracy a.accuracy).then
      ((qCmp b.completeness a.completeness).then
        ((qCmp b.insight a.insight).then (sCmp a.agentId b.agentId))))

/-- The `|| scores[0]?.agentId || 'agent-1'` tail of `resolveWinner`
(JS `||` treats the empty string as falsy). -/
def resolveWinnerFallback (scores : List JudgeScore) : String :=
  match scores.head? with
  | some s => if s.agentId ≠ "" then s.agentId else "agent-1"
  | none => "agent-1"

/-- registry.ts `resolveWinner`: first agent id of the comparator-sorted copy,
falling back to the first listed score, then to `'agent-1'`. -/
def resolveWinner (scores : List JudgeScore) : String :=
  match (sortByCmp scoreCmp scores).head? with
  | some s => if s.agentId ≠ "" then s.agentId else resolveWinnerFallback scores
  | none => resolveWinnerFallback scores

/-- JS regex word character `\w` = `[A-Za-z0-9_]` (ASCII, as in JS). -/
def isWordChar (c : Char) : Bool := c.isAlphanum || c = '_'

/-- JS regex word boundary `\b` at position `i` of `hay` (between `hay[i-1]`
and `hay[i]`; the ends of the string count as non-word). -/
def boundaryAt (hay : List Char) (i : ℕ) : Bool :=
  let left := if i = 0 then false else
    match hay.get? (i - 1) with | some c => isWordChar c | none => false
  let right := match hay.get? i with | some c => isWordChar c | none => false
  left != right

/-- Case-insensitive occurrence of the (lower-case) literal `phrase` in `s`,
delimited by `\b` on both sides — one alternative of an expanded
`/\b(...)\b/i` source regex. -/
def hasBoundedPhrase (s : String) (phrase : String) : Bool :=
  let hay := s.data
  let pat := phrase.data
  (List.range (hay.length + 1)).any (fun i =>
    decide (((hay.drop i).take pat.length).map Char.toLower = pat)
    && boundaryAt hay i && boundaryAt hay (i + pat.length))

/-- The finite expansion of registry.ts
`/\b(all tests? pass(ed)?|tests? pass(ed)?|no failing tests?)\b/i`. -/
def PASSING_CLAIM_PHRASES : List String :=
  ["all tests pass", "all tests passed", "all test pass", "all test passed",
   "tests pass", "tests passed", "test pass", "test passed",
   "no failing tests", "no failing test"]

/-- registry.ts `hasUnverifiedPassingClaim`. -/
def hasUnverifiedPassingClaim (response : String) : Bool :=
  PASSING_CLAIM_PHRASES.any (hasBoundedPhrase response)

/-- The finite expansion of registry.ts
`/\b(assert|expect\(|pytest|unittest|describe\(|it\(|test\(|cargo test)\b/i`. -/
def CODE_TEST_PHRASES : List String :=
  ["assert", "expect(", "pytest", "unittest", "describe(", "it(", "test(", "cargo test"]

/-- registry.ts `toStringArray` on a JSON value: keep the strings of an array,
trim + lower-case them, drop the resulting empties. -/
def toStringArray : Json → List String
  | .arr items =>
    ((items.filterMap (fun j => match j with | .str s => some s | _ => none)).map
      (fun s => jsStrToLower (jsTrim s))).filter (fun s => s ≠ "")
  | _ => []

/-- registry.ts `extractShellInvocation`: a non-array JSON object with a
non-empty (trimmed, lower-cased) string `command`, plus its `args` strings. -/
def extractShellInvocation (input : Option Json) : Option (String × List String) :=
  match input with
  | some (.obj fields) =>
    let command := match alistGet fields "command" with
      | some (.str s) => jsStrToLower (jsTrim s)
      | _ => ""
    if command = "" then none
    else some (command, match alistGet fields "args" with
      | some j => toStringArray j
      | none => [])
  | _ => none

/-- registry.ts `isPackageManager`. -/
def isPackageManager (command : String) : Bool :=
  command = "npm" || command = "pnpm" || command = "yarn"

/-- registry.ts `isTestInvocation`. -/
def isTestInvocation (command : String) (args : List String) : Bool :=
  if !isPackageManager command then false
  else
    let first := ((args.get? 0).getD "")
    let second := ((args.get? 1).getD "")
    first = "test" || ((first = "run" || first = "run-script") && second = "test")

/-- registry.ts `isLintInvocation`. -/
def isLintInvocation (command : String) (args : List String) : Bool :=
  if !isPackageManager command then false
  else
    let first := ((args.get? 0).getD "")
    let second := ((args.get? 1).getD "")
    if first = "lint" || first = "typecheck" || first = "check" then true
    else (first = "run" || first = "run-script") &&
      (second = "lint" || second = "typecheck" || second = "check")

/-- registry.ts `hasCodeExecutorTestPattern`: a non-array JSON object whose
string `code` field matches the expanded test-pattern regex. -/
def hasCodeExecutorTestPattern (input : Option Json) : Bool :=
  match input with
  | some (.obj fields) =>
    let code := match alistGet fields "code" with
      | some (.str s) => s
      | _ => ""
    if code = "" then false
    else CODE_TEST_PHRASES.any (hasBoundedPhrase code)
  | _ => false

/-- registry.ts `CodingObjectiveSignals`. -/
structure CodingObjectiveSignals where
  verificationRuns : ℕ := 0
  successfulVerificationRuns : ℕ := 0
  failedVerificationRuns : ℕ := 0
  testRuns : ℕ := 0
  passedTestRuns : ℕ := 0
  failedTestRuns : ℕ := 0
  lintRuns : ℕ := 0
  failedLintRuns : ℕ := 0
  claimedPassingTestsWithoutEvidence : Bool := false
deriving DecidableEq, Repr

/-- One loop iteration of registry.ts `extractCodingObjectiveSignals` (the
source's `continue` on a null shell invocation only skips checks that could
not fire anyway, so sequential accumulation is observationally identical). -/
def signalsStep (s : CodingObjectiveSignals) (usage : SkillToolCallRecord) :
    CodingObjectiveSignals :=
  let s :=
    if usage.name = "workspace-shell" || usage.name = "code-executor" then
      { s with
          verificationRuns := s.verificationRuns + 1
          successfulVerificationRuns :=
            s.successfulVerificationRuns + (if usage.success then 1 else 0)
          failedVerificationRuns :=
            s.failedVerificationRuns + (if usage.success then 0 else 1) }
    else s
  let s :=
    if usage.name = "workspace-shell" then
      match extractShellInvocation usage.input with
      | none => s
      | some (command, args) =>
        let s :=
          if isTestInvocation command args then
            { s with
                testRuns := s.testRuns + 1
                passedTestRuns := s.passedTestRuns + (if usage.success then 1 else 0)
                failedTestRuns := s.failedTestRuns + (if usage.success then 0 else 1) }
          else s
        if isLintInvocation command args then
          { s with
              lintRuns := s.lintRuns + 1
              failedLintRuns := s.failedLintRuns + (if usage.success then 0 else 1) }
        else s
    else s
  if usage.name = "code-executor" && hasCodeExecutorTestPattern usage.input then
    { s with
        testRuns := s.testRuns + 1
        passedTestRuns := s.passedTestRuns + (if usage.success then 1 else 0)
        failedTestRuns := s.failedTestRuns + (if usage.success then 0 else 1) }
  else s

/-- registry.ts `extractCodingObjectiveSignals`. -/
def extractCodingObjectiveSignals (result : AgentRunResult) : CodingObjectiveSignals :=
  let signals := result.skillUsage.foldl signalsStep {}
  { signals with
      claimedPassingTestsWithoutEvidence :=
        hasUnverifiedPassingClaim result.response && signals.testRuns = 0 }

/-- registry.ts `clampMetric`: clamp to [0,10] and round to 2 decimals. -/
def clampMetric (value : ℚ) : ℚ := toFixedQ 2 (max 0 (min 10 value))

/-- registry.ts `computeCodingObjectiveScore` (the audit `notes` strings are
omitted — no claim mentions them). -/
def computeCodingObjectiveScore (signals : CodingObjectiveSignals) : ℚ :=
  let score : ℚ := 21 / 5
  let score :=
    if signals.verificationRuns > 0 then
      score + 6 / 5 + min (11 / 5) ((signals.successfulVerificationRuns : ℚ) * (9 / 20))
        - min (9 / 5) ((signals.failedVerificationRuns : ℚ) * (11 / 20))
    else score - 6 / 5
  let score :=
    if signals.testRuns > 0 then
      let passRate := (signals.passedTestRuns : ℚ) / (max 1 (signals.testRuns : ℚ))
      score + 4 / 5 + passRate * (21 / 10)
    else score - 2 / 5
  let score :=
    if signals.lintRuns > 0 then
      if signals.failedLintRuns = 0 then score + 2 / 5
      else score - min 1 ((signals.failedLintRuns : ℚ) * (7 / 20))
    else score
  let score :=
    if signals.claimedPassingTestsWithoutEvidence then score - 3 / 2 else score
  clampMetric score

/-- registry.ts `applyCodingObjectiveScoring`: blend the objective score into
accuracy (72% / 28%) and completeness (82% / 18%), recompute the weighted
base total and reset `total` to it (the `objectiveAdjustment` audit record is
omitted). -/
def applyCodingObjectiveScoring (scores : List JudgeScore)
    (successfulResults : List AgentRunResult) (weights : JudgeWeights) :
    List JudgeScore :=
  let resultByAgent := successfulResults.foldl (fun m r => alistSet m r.agentId r) []
  scores.map (fun score =>
    match alistGet resultByAgent score.agentId with
    | none => score
    | some result =>
      let objectiveScore := computeCodingObjectiveScore (extractCodingObjectiveSignals result)
      let adjustedAccuracy :=
        clampMetric (score.accuracy * (72 / 100) + objectiveScore * (28 / 100))
      let adjustedCompleteness :=
        clampMetric (score.completeness * (82 / 100) + objectiveScore * (18 / 100))
      let adjustedBaseTotal := weightedTotal weights
        { accuracy := adjustedAccuracy, completeness := adjustedCompleteness
          clarity := score.clarity, insight := score.insight }
      { score with
          accuracy := adjustedAccuracy
          completeness := adjustedCompleteness
          baseTotal := adjustedBaseTotal
          total := adjustedBaseTotal })

/-- Judge invocation mode. -/
inductive JudgeMode where
  | single : JudgeMode
  | consensus : JudgeMode
deriving DecidableEq, Repr

/-- Objective domain-correction mode (`ObjectiveJudgeMode`). -/
inductive ObjectiveJudgeMode where
  | noneMode : ObjectiveJudgeMode
  | codingV1 : ObjectiveJudgeMode
deriving DecidableEq, Repr

/-- One stored panel run of a consensus verdict (`summary` omitted). -/
structure PanelRun where
  panelId : Option ℕ
  winner : String
  scores : List JudgeScore
deriving DecidableEq, Repr

/-- A judge verdict (registry.ts `JudgeResult`).  `summary`, `judgedAt`,
`judgePromptVersion` and the orchestrator's merged trust-signal annotations
are omitted — no proved property mentions them. -/
structure JudgeResult where
  winner : String
  scores : List JudgeScore
  mode : JudgeMode
  criteriaWeights : JudgeWeights
  panelId : Option ℕ := none
  disagreementIndex : Option ℚ := none
  panelAgreement : Option ℚ := none
  runs : Option (List PanelRun) := none
deriving DecidableEq, Repr

/-- One agent entry of the parsed generative judge output (the zod
`scoreSchema`; the `reasoning` and evidence strings are omitted, their
non-emptiness checks folded into `validParsedResponse`). -/
structure ParsedScore where
  agentId : String
  accuracy : ℚ
  completeness : ℚ
  clarity : ℚ
  insight : ℚ
deriving DecidableEq, Repr

/-- The parsed generative judge output (the zod `judgeResponseSchema`). -/
structure ParsedJudgeResponse where
  scores : List ParsedScore
  winner : String
deriving DecidableEq, Repr

/-- The zod validation of `judgeResponseSchema`: at least one score, metrics
within [0,10], non-empty ids. -/
def validParsedResponse (p : ParsedJudgeResponse) : Bool :=
  decide (1 ≤ p.scores.length) && p.winner ≠ "" &&
  p.scores.all (fun s =>
    s.agentId ≠ "" &&
    decide (0 ≤ s.accuracy ∧ s.accuracy ≤ 10) &&
    decide (0 ≤ s.completeness ∧ s.completeness ≤ 10) &&
    decide (0 ≤ s.clarity ∧ s.clarity ≤ 10) &&
    decide (0 ≤ s.insight ∧ s.insight ≤ 10))

/-- Pipeline failures surfaced by the judge and the orchestrator. -/
inductive OrchError where
  | missingApiKey : OrchError
  | noSuccessfulResults : OrchError
  | winnerNotFound : OrchError
  | dbError : OrchError
deriving DecidableEq, Repr

/-- The success filter used by both `judgeResponses` and the orchestrator:
`result.success && result.response.trim().length > 0`. -/
def successfulOf (results : List AgentRunResult) : List AgentRunResult :=
  results.filter (fun r => r.success && decide (0 < (jsTrim r.response).length))

/-- registry.ts resolution of the objective mode from `JudgeOptions`. -/
def resolveObjectiveMode (opt : Option ObjectiveJudgeMode)
    (taskCategory : Option String) : ObjectiveJudgeMode :=
  match opt with
  | some .codingV1 => .codingV1
  | some .noneMode => .noneMode
  | none => if taskCategory = some "coding" then .codingV1 else .noneMode

/-- The options record consumed by `judgeResponses`.  `provider`, `model` and
`judgePromptVersion` are omitted (they only route the network call); the
network + parse outcome is the explicit `oracle` (`none` = request or parse
failed), and `hasApiKey` models `resolveProviderApiKey` returning a key. -/
structure JudgeOptions where
  criteriaWeights : Option JudgeWeightsInput := none
  panelId : Option ℕ := none
  taskCategory : Option String := none
  objectiveMode : Option ObjectiveJudgeMode := none
  hasApiKey : Bool := true
  oracle : Option ParsedJudgeResponse := none

/-- The `catch` path of `judgeResponses`: flat fallback scores for every
successful agent, then objective correction and diversity penalty. -/
def judgeFallbackResult (successfulResults : List AgentRunResult)
    (criteriaWeights : JudgeWeights) (objectiveMode : ObjectiveJudgeMode)
    (panelId : Option ℕ) : JudgeResult :=
  let fallbackScores := successfulResults.map (fun r => fallbackScore r.agentId criteriaWeights)
  let fallbackScores :=
    if objectiveMode = .codingV1 then
      applyCodingObjectiveScoring fallbackScores successfulResults criteriaWeights
    else fallbackScores
  let fallbackScores := applyDiversityPenalty fallbackScores successfulResults
  { winner := resolveWinner fallbackScores, scores := fallbackScores
    mode := .single, criteriaWeights := criteriaWeights, panelId := panelId }

/-- The scored path of `judgeResponses` once a parsed judge response is in
hand: score every successful agent (fallback when the judge omitted it),
apply the objective correction and the diversity penalty, resolve the winner. -/
def judgeScoredResult (successfulResults : List AgentRunResult)
    (criteriaWeights : JudgeWeights) (objectiveMode : ObjectiveJudgeMode)
    (panelId : Option ℕ) (parsed : ParsedJudgeResponse) : JudgeResult :=
  let incomingByAgent := parsed.scores.foldl (fun m s => alistSet m s.agentId s) []
  let scores := successfulResults.map (fun result =>
    match alistGet incomingByAgent result.agentId with
    | none => fallbackScore result.agentId criteriaWeights
    | some ps =>
      let baseTotal := weightedTotal criteriaWeights
        { accuracy := ps.accuracy, completeness := ps.completeness
          clarity := ps.clarity, insight := ps.insight }
      { agentId := result.agentId, accuracy := ps.accuracy
        completeness := ps.completeness, clarity := ps.clarity
        insight := ps.insight, total := baseTotal, baseTotal := baseTotal
        diversityPenaltyApplied := false, maxSimilarity := 0 })
  let scores :=
    if objectiveMode = .codingV1 then
      applyCodingObjectiveScoring scores successfulResults criteriaWeights
    else scores
  let scores := applyDiversityPenalty scores successfulResults
  { winner := resolveWinner scores, scores := scores
    mode := .single, criteriaWeights := criteriaWeights, panelId := panelId }

/-- registry.ts `judgeResponses`.  Returns the verdict together with a flag
recording whether a generative judge request was issued (`false` on the
single-successful-agent early return and on a missing API key). -/
def judgeResponses (results : List AgentRunResult) (options : JudgeOptions) :
    Except OrchError (JudgeResult × Bool) :=
  let successfulResults := successfulOf results
  let criteriaWeights := normalizeJudgeWeights options.criteriaWeights
  let objectiveMode := resolveObjectiveMode options.objectiveMode options.taskCategory
  if successfulResults.length = 0 then .error .noSuccessfulResults
  else if successfulResults.length = 1 then
    match successfulResults.head? with
    | none => .error .noSuccessfulResults
    | some winner =>
      let singleScores := [fallbackScore winner.agentId criteriaWeights]
      let singleScores :=
        if objectiveMode = .codingV1 then
          applyCodingObjectiveScoring singleScores [winner] criteriaWeights
        else singleScores
      .ok ({ winner := winner.agentId, scores := singleScores
             mode := .single, criteriaWeights := criteriaWeights
             panelId := options.panelId }, false)
  else if options.hasApiKey then
    match options.oracle with
    | some parsed =>
      if validParsedResponse parsed then
        .ok (judgeScoredResult successfulResults criteriaWeights objectiveMode
          options.panelId parsed, true)
      else
        .ok (judgeFallbackResult successfulResults criteriaWeights objectiveMode
          options.panelId, true)
    | none =>
      .ok (judgeFallbackResult successfulResults criteriaWeights objectiveMode
        options.panelId, true)
  else
    .ok (judgeFallbackResult successfulResults criteriaWeights objectiveMode
      options.panelId, false)

/-- Orchestrator `median`: sort ascending, take the middle element for an odd
count, and the 4-decimal-rounded mean of the two middle elements for an even
count; 0 for an empty list. -/
def median (values : List ℚ) : ℚ :=
  if values.length = 0 then 0
  else
    let sorted := sortByCmp qCmp values
    let middle := sorted.length / 2
    if sorted.length % 2 = 1 then (sorted.get? middle).getD 0
    else toFixedQ 4 ((((sorted.get? (middle - 1)).getD 0) + ((sorted.get? middle).getD 0)) / 2)

/-- Orchestrator `computeWeightedTotal` (its own copy of the weighted-total
formula, `Math.round(weights · metrics * 4)`). -/
def computeWeightedTotal (weights : JudgeWeights) (m : MetricValues) : ℤ :=
  jsRound ((m.accuracy * weights.accuracy + m.completeness * weights.completeness +
    m.clarity * weights.clarity + m.insight * weights.insight) * 4)

/-- The per-agent body of `aggregateConsensusJudgeRuns`: collect the agent's
score from each panel, take the 2-decimal-rounded median of every metric and
recompute the weighted base total (the `bestRun` of the source only supplies
the omitted reasoning/evidence strings). -/
def consensusMedianScore (judgeRuns : List JudgeResult)
    (criteriaWeights : JudgeWeights) (agentId : String) : JudgeScore :=
  let perRunScores := judgeRuns.filterMap
    (fun run => run.scores.find? (fun score => score.agentId = agentId))
  let accuracy := toFixedQ 2 (median (perRunScores.map (·.accuracy)))
  let completeness := toFixedQ 2 (median (perRunScores.map (·.completeness)))
  let clarity := toFixedQ 2 (median (perRunScores.map (·.clarity)))
  let insight := toFixedQ 2 (median (perRunScores.map (·.insight)))
  let baseTotal := computeWeightedTotal criteriaWeights
    { accuracy := accuracy, completeness := completeness
      clarity := clarity, insight := insight }
  { agentId := agentId, accuracy := accuracy, completeness := completeness
    clarity := clarity, insight := insight, total := baseTotal
    baseTotal := baseTotal, diversityPenaltyApplied := false, maxSimilarity := 0 }

/-- Minimum of a list of integers (`Math.min(...totals)`), 0 when empty. -/
def listMinD (l : List ℤ) : ℤ :=
  match l with
  | [] => 0
  | x :: xs => xs.foldl min x

/-- Maximum of a list of integers (`Math.max(...totals)`), 0 when empty. -/
def listMaxD (l : List ℤ) : ℤ :=
  match l with
  | [] => 0
  | x :: xs => xs.foldl max x

/-- Orchestrator `computeConsensusDisagreementIndex`: the per-agent spread
`(max − min) / 40` of panel totals, averaged over agents, rounded to 4
decimals (the source's `Number.isFinite` filter never drops a rational). -/
def computeConsensusDisagreementIndex (judgeRuns : List JudgeResult)
    (agentIds : List String) : ℚ :=
  if judgeRuns.length ≤ 1 ∨ agentIds.length = 0 then 0
  else
    let perAgentSpread := agentIds.map (fun agentId =>
      let totals := judgeRuns.map (fun run =>
        ((run.scores.find? (fun score => score.agentId = agentId)).map (·.total)).getD 0)
      if totals.length ≤ 1 then (0 : ℚ)
      else ((listMaxD totals - listMinD totals : ℤ) : ℚ) / 40)
    toFixedQ 4 (perAgentSpread.sum / (perAgentSpread.length : ℚ))

/-- Orchestrator `aggregateConsensusJudgeRuns`: median-aggregate each
successful agent across the panels, apply the diversity penalty once to the
aggregated scores, resolve the winner, and derive the disagreement index and
the panel-agreement ratio (votes / panels, rounded to 4 decimals).  The
consensus `summary` string is omitted. -/
def aggregateConsensusJudgeRuns (judgeRuns : List JudgeResult)
    (successfulResults : List AgentRunResult)
    (criteriaWeights : JudgeWeights) : JudgeResult :=
  let agentIds := successfulResults.map (·.agentId)
  let scores := agentIds.map (consensusMedianScore judgeRuns criteriaWeights)
  let penalizedScores := applyDiversityPenalty scores successfulResults
  let winner := resolveWinner penalizedScores
  let winnerVotes := (judgeRuns.filter (fun run => run.winner = winner)).length
  let disagreementIndex := computeConsensusDisagreementIndex judgeRuns agentIds
  let panelAgreement := toFixedQ 4 ((winnerVotes : ℚ) / max 1 (judgeRuns.length : ℚ))
  { winner := winner, scores := penalizedScores, mode := .consensus
    criteriaWeights := criteriaWeights, panelId := none
    disagreementIndex := some disagreementIndex
    panelAgreement := some panelAgreement
    runs := some (judgeRuns.map (fun run =>
      { panelId := run.panelId, winner := run.winner, scores := run.scores })) }

/-- The `CONFIDENCE_GATE_*` slice of the backend configuration. -/
structure GateConfig where
  enabled : Bool
  minTotal : ℚ
  minMargin : ℚ
  minAccuracy : ℚ
deriving DecidableEq, Repr

/-- One violated gate threshold (one fragment of the composed reason
string; the interpolated numbers of the source string are omitted). -/
inductive GateViolation where
  | totalBelow : GateViolation
  | marginBelow : GateViolation
  | accuracyBelow : GateViolation
deriving DecidableEq, Repr

/-- The gate decision's `reason` string, modelled structurally: the fixed
disabled / passed messages, or the `'; '`-joined list of violation
fragments in source order. -/
inductive GateReason where
  | disabledReason : GateReason
  | passedReason : GateReason
  | failedReason (violations : List GateViolation) : GateReason
deriving DecidableEq, Repr

/-- Orchestrator `ConfidenceGateDecision`. -/
structure ConfidenceGateDecision where
  enabled : Bool
  passed : Bool
  winnerTotal : ℚ
  winnerAccuracy : ℚ
  marginToSecond : ℚ
  minTotal : ℚ
  minMargin : ℚ
  minAccuracy : ℚ
  reason : GateReason
deriving DecidableEq, Repr

/-- The total-descending stable sort at the top of `evaluateConfidenceGate`. -/
def gateSorted (judgeResult : JudgeResult) : List JudgeScore :=
  sortByCmp (fun l r => iCmp r.total l.total) judgeResult.scores

/-- The `winner?.total ?? 0` value over the total-sorted scores. -/
def gateWinnerTotal (judgeResult : JudgeResult) : ℚ :=
  ((((gateSorted judgeResult).get? 0).map (·.total)).getD 0 : ℤ)

/-- The `winner?.accuracy ?? 0` value over the total-sorted scores. -/
def gateWinnerAccuracy (judgeResult : JudgeResult) : ℚ :=
  (((gateSorted judgeResult).get? 0).map (·.accuracy)).getD 0

/-- The `second ? winnerTotal - second.total : winnerTotal` value: the margin over the
runner-up, or the winner's own total when no runner-up exists. -/
def gateMargin (judgeResult : JudgeResult) : ℚ :=
  match (gateSorted judgeResult).get? 1 with
  | some s => gateWinnerTotal judgeResult - ((s.total : ℤ) : ℚ)
  | none => gateWinnerTotal judgeResult

/-- Orchestrator `evaluateConfidenceGate`: sort scores by total descending
(stable), read the winner and runner-up, and when enabled collect one reason
per violated threshold; `marginToSecond` falls back to the winner's own total
when there is no runner-up, and is rounded to 2 decimals on the enabled
paths (`Number(marginToSecond.toFixed(2))`). -/
def evaluateConfidenceGate (cfg : GateConfig) (judgeResult : JudgeResult) :
    ConfidenceGateDecision :=
  let winnerTotal : ℚ := gateWinnerTotal judgeResult
  let winnerAccuracy : ℚ := gateWinnerAccuracy judgeResult
  let marginToSecond : ℚ := gateMargin judgeResult
  if !cfg.enabled then
    { enabled := cfg.enabled, passed := true
      winnerTotal := winnerTotal, winnerAccuracy := winnerAccuracy
      marginToSecond := marginToSecond
      minTotal := cfg.minTotal, minMargin := cfg.minMargin
      minAccuracy := cfg.minAccuracy, reason := .disabledReason }
  else
    let reasons : List GateViolation :=
      (if winnerTotal < cfg.minTotal then [.totalBelow] else []) ++
      (if marginToSecond < cfg.minMargin then [.marginBelow] else []) ++
      (if winnerAccuracy < cfg.minAccuracy then [.accuracyBelow] else [])
    let passed := reasons.length = 0
    { enabled := cfg.enabled, passed := passed
      winnerTotal := winnerTotal, winnerAccuracy := winnerAccuracy
      marginToSecond := toFixedQ 2 marginToSecond
      minTotal := cfg.minTotal, minMargin := cfg.minMargin
      minAccuracy := cfg.minAccuracy
      reason := if passed then .passedReason else .failedReason reasons }

/-- Orchestrator `LEARNING_SCORE_THRESHOLD` = 25 (of 40). -/
def LEARNING_SCORE_THRESHOLD : ℤ := 25

/-- Orchestrator `CONSENSUS_PANEL_COUNT` = 3. -/
def CONSENSUS_PANEL_COUNT : ℕ := 3

/-- Orchestrator `selectPatternThoughts`: up to 3 thoughts whose derived
confidence reaches `confidenceFloor`, else the first 2 thoughts. -/
def selectPatternThoughts (result : AgentRunResult)
    (confidenceFloor : ℚ := 4 / 5) : List String :=
  let bestThoughts :=
    ((result.reasoning.filter (fun step => decide (confidenceFloor ≤ step.confidence))).take 3).map
      (·.thought)
  if 0 < bestThoughts.length then bestThoughts
  else (result.reasoning.take 2).map (·.thought)

/-- Orchestrator `buildToolPath`: the first 6 tool names joined by `' -> '`,
or `'no-tools'`. -/
def buildToolPath (result : AgentRunResult) : String :=
  if 0 < result.telemetry.toolSequence.length then
    String.intercalate " -> " (result.telemetry.toolSequence.take 6)
  else "no-tools"

/-- Orchestrator `buildPattern` (used for learning-observation rows): the
0.7-floor thought selection, with the literal failure / placeholder marker
when nothing was selected (JS treats an empty `error` string as falsy). -/
def buildPattern (result : AgentRunResult) (taskCategory : String) : String :=
  let selectedThoughts := selectPatternThoughts result (7 / 10)
  let thoughtText :=
    if 0 < selectedThoughts.length then String.intercalate " -> " selectedThoughts
    else
      match result.error with
      | some e => if e ≠ "" then "failure:" ++ e else "no-reasoning-captured"
      | none => "no-reasoning-captured"
  "[" ++ result.persona ++ "][" ++ taskCategory ++ "][tools:" ++
    buildToolPath result ++ "] " ++ thoughtText

/-- One `AgentLearning` row (Prisma model): the cross-agent learning store. -/
structure AgentLearning where
  id : ℕ
  agentId : String
  learnedPattern : String
  sourceAgent : String
  taskCategory : String
  appliedCount : ℕ
  successCount : ℕ
  successRate : ℚ
  avgLift : ℚ
  liftSamples : ℕ
deriving DecidableEq, Repr

/-- One `LearningObservation` row.  The score-breakdown columns, judge-mode
metadata, tool/skill counters and the JSON `payload` are omitted — no proved
property mentions them. -/
structure LearningObservationRow where
  taskId : String
  agentId : String
  persona : String
  outcomeType : String
  taskCategory : String
  scoreTotal : ℤ
  pattern : String
deriving DecidableEq, Repr

/-- Orchestrator `buildLearningObservationRows` (one row per agent; the
winner with a total at or above the learning threshold is tagged
`'win_pattern'`, everyone else `'loss_pattern'`). -/
def buildLearningObservationRows (taskId : String)
    (judgeResult : Option JudgeResult) (allResults : List AgentRunResult)
    (taskCategory : String) : List LearningObservationRow :=
  let scoreByAgent :=
    ((judgeResult.map (·.scores)).getD []).foldl
      (fun m s => alistSet m s.agentId s) []
  allResults.map (fun result =>
    let score := alistGet scoreByAgent result.agentId
    let isHighWinner : Bool :=
      match judgeResult with
      | some jr =>
        result.agentId == jr.winner &&
          decide (LEARNING_SCORE_THRESHOLD ≤ ((score.map (·.total)).getD 0))
      | none => false
    { taskId := taskId, agentId := result.agentId, persona := result.persona
      outcomeType := if isHighWinner then "win_pattern" else "loss_pattern"
      taskCategory := taskCategory
      scoreTotal := (score.map (·.total)).getD 0
      pattern := buildPattern result taskCategory })

/-- Substring test modelling the Prisma `contains` filter (SQLite's LIKE is
case-insensitive for ASCII; the persona names involved are matched verbatim
here, which agrees on every string this system generates). -/
def strContains (haystack needle : String) : Bool :=
  decide (needle.data <:+: haystack.data)

/-- Task lifecycle status. -/
inductive TaskStatus where
  | pending : TaskStatus
  | running : TaskStatus
  | completed : TaskStatus
  | failed : TaskStatus
deriving DecidableEq, Repr

/-- One `TaskResult` row (response text, token/time columns omitted). -/
structure TaskResultRow where
  taskId : String
  agentId : String
  success : Bool
deriving DecidableEq, Repr

/-- One `Strategy` row (approach/context strings omitted). -/
structure StrategyRow where
  taskId : String
  agentId : String
  successRate : ℚ
deriving DecidableEq, Repr

/-- One `SkillUsage` row (input/summary/duration columns omitted). -/
structure SkillUsageRow where
  taskId : String
  agentId : String
  skillName : String
deriving DecidableEq, Repr

/-- The persistence state visible to one orchestration run.
`categoryHistory` holds, pre-joined, the (category, winning total) pairs of
previously persisted judge verdicts that `computeCategoryBaseline` reads
(the source's 200-row cap and current-task exclusion are outside one run:
the history list simply does not contain the current task).  `cacheKeys`
records the keys written to the in-memory `setCache` replacement (which
never fails). -/
structure OrchStore where
  taskStatus : TaskStatus
  taskResults : List TaskResultRow
  strategies : List StrategyRow
  judgeRows : List (String × JudgeResult)
  skillUsageRows : List SkillUsageRow
  observations : List LearningObservationRow
  learnings : List AgentLearning
  nextLearningId : ℕ
  categoryHistory : List (String × ℤ)
  cacheKeys : List String
deriving Repr

/-- Failure injection for each kind of persistence write: `true` means every
write of that kind rejects during this run. -/
structure DbFlags where
  failTaskUpdateRunning : Bool := false
  failTaskUpdateCompleted : Bool := false
  failTaskResultCreate : Bool := false
  failStrategyCreate : Bool := false
  failJudgeUpsert : Bool := false
  failSkillUsageCreate : Bool := false
  failLearningObsCreate : Bool := false
  failAgentLearningWrite : Bool := false
  failTaskUpdateFailed : Bool := false
deriving DecidableEq, Repr

/-- Orchestrator `computeCategoryBaseline`: mean historical winning total for
the category, 2-decimal-rounded, or 20 when there is no history. -/
def computeCategoryBaseline (st : OrchStore) (taskCategory : String) : ℚ :=
  let winnerTotals := (st.categoryHistory.filter (fun p => p.1 = taskCategory)).map (·.2)
  if winnerTotals.length = 0 then 20
  else toFixedQ 2 ((winnerTotals.map (fun t => (t : ℚ))).sum / (winnerTotals.length : ℚ))

/-- One iteration of the `extractAndSaveLearnings` upsert loop over the other
agents, threading (learning rows, next fresh id). -/
def upsertLearning (winner : AgentRunResult) (taskCategory : String)
    (learnedPattern : String) (quality : ℚ) (winnerLift : ℚ)
    (acc : List AgentLearning × ℕ) (agentId : String) :
    List AgentLearning × ℕ :=
  let (learnings, nextId) := acc
  match learnings.find? (fun l =>
      l.agentId == agentId && l.sourceAgent == winner.agentId &&
      l.taskCategory == taskCategory && strContains l.learnedPattern winner.persona) with
  | some existing =>
    let emaSuccessRate := existing.successRate * (8 / 10) + quality * (2 / 10)
    let nextLiftSamples := existing.liftSamples + 1
    let nextAvgLift := toFixedQ 4
      ((existing.avgLift * (existing.liftSamples : ℚ) + winnerLift) / (nextLiftSamples : ℚ))
    (learnings.map (fun l =>
      if l.id = existing.id then
        { l with
            learnedPattern := learnedPattern
            appliedCount := l.appliedCount + 1
            successCount := l.successCount + (if 0 < winnerLift then 1 else 0)
            successRate := emaSuccessRate
            avgLift := nextAvgLift
            liftSamples := l.liftSamples + 1 }
      else l), nextId)
  | none =>
    (learnings ++ [{ id := nextId, agentId := agentId
                     learnedPattern := learnedPattern
                     sourceAgent := winner.agentId, taskCategory := taskCategory
                     appliedCount := 1
                     successCount := if 0 < winnerLift then 1 else 0
                     successRate := quality, avgLift := winnerLift
                     liftSamples := 1 }], nextId + 1)

/-- Orchestrator `extractAndSaveLearnings`.  The function body is wrapped in
its own try/catch in the source ("non-critical"): a failing learning write
aborts the loop and is swallowed, modelled by `failAgentLearningWrite`
leaving the store untouched (the first write of the loop already rejects). -/
def extractAndSaveLearnings (winner : AgentRunResult)
    (judgeResult : JudgeResult) (allResults : List AgentRunResult)
    (taskCategory : String) (winnerLift : ℚ) (db : DbFlags)
    (st : OrchStore) : OrchStore :=
  if !winner.success || winner.reasoning.length = 0 then st
  else
    match judgeResult.scores.find? (fun s => s.agentId == winner.agentId) with
    | none => st
    | some winnerScore =>
      if winnerScore.total < LEARNING_SCORE_THRESHOLD then st
      else
        let selectedThoughts := selectPatternThoughts winner (4 / 5)
        let toolPath := buildToolPath winner
        if selectedThoughts.length = 0 then st
        else
          let learnedPattern := "[" ++ winner.persona ++ "][" ++ taskCategory ++
            "][tools:" ++ toolPath ++ "] " ++ String.intercalate " -> " selectedThoughts
          let quality := (winnerScore.total : ℚ) / 40
          let otherAgents :=
            (allResults.filter (fun r => r.agentId ≠ winner.agentId)).map (·.agentId)
          if db.failAgentLearningWrite then st
          else
            let folded := otherAgents.foldl
              (upsertLearning winner taskCategory learnedPattern quality winnerLift)
              (st.learnings, st.nextLearningId)
            { st with learnings := folded.1, nextLearningId := folded.2 }

/-- The configuration slice the orchestrator reads: learning enable flag,
confidence-gate thresholds, and whether the selected provider has an API key
(`resolveProviderApiKey` succeeding). -/
structure OrchConfig where
  enableLearning : Bool
  gate : GateConfig
  hasApiKey : Bool
deriving DecidableEq, Repr

/-- The `winner` summary of an `OrchestrationResult`. -/
structure OrchWinner where
  agentId : String
  persona : String
  tokensUsed : ℕ
  timeMs : ℕ
  judgeScore : Option ℤ
deriving DecidableEq, Repr

/-- Orchestrator `OrchestrationResult` (`completedAt` timestamp omitted). -/
structure OrchestrationResult where
  taskId : String
  winner : OrchWinner
  judgeResult : JudgeResult
  confidenceGate : ConfidenceGateDecision
  results : List AgentRunResult
deriving Repr

/-- View a weight vector as the `Partial<JudgeWeights>` the orchestrator
hands back to `judgeResponses` (which re-normalizes it). -/
def JudgeWeights.toInput (w : JudgeWeights) : JudgeWeightsInput :=
  { accuracy := some w.accuracy, completeness := some w.completeness
    clarity := some w.clarity, insight := some w.insight }

/-- The `Promise.all` join over judge panels: the value list, or the first rejection. -/
def collectExcepts {ε α : Type} : List (Except ε α) → Except ε (List α)
  | [] => .ok []
  | .error e :: _ => .error e
  | .ok a :: rest => (collectExcepts rest).map (a :: ·)

/-- The step-9 batched persistence writes (`await Promise.all(writes)`).
All writes run: each applies its effect or fails per its flag, and the batch
reports whether any failed (the rejection of `Promise.all`). -/
def runBatchWrites (db : DbFlags) (taskId : String)
    (results : List AgentRunResult) (winnerResult : AgentRunResult)
    (judgeResult : JudgeResult) (normalizedWinnerScore : ℚ)
    (obsRows : List LearningObservationRow) (skillRows : List SkillUsageRow)
    (st : OrchStore) : Bool × OrchStore :=
  let s1 :=
    if db.failTaskUpdateCompleted then (true, st)
    else (false, { st with taskStatus := TaskStatus.completed })
  let resultRows : List TaskResultRow := results.map (fun r =>
    { taskId := taskId, agentId := r.agentId, success := r.success })
  let strategyRow : StrategyRow :=
    { taskId := taskId, agentId := winnerResult.agentId
      successRate := normalizedWinnerScore }
  let s2 :=
    if db.failTaskResultCreate then (true, s1.2)
    else (false, { s1.2 with taskResults := s1.2.taskResults ++ resultRows })
  let s3 :=
    if db.failStrategyCreate then (true, s2.2)
    else (false, { s2.2 with strategies := s2.2.strategies ++ [strategyRow] })
  let s4 :=
    if db.failJudgeUpsert then (true, s3.2)
    else (false, { s3.2 with judgeRows := alistSet s3.2.judgeRows taskId judgeResult })
  let s5 :=
    if skillRows.length = 0 then (false, s4.2)
    else if db.failSkillUsageCreate then (true, s4.2)
    else (false, { s4.2 with skillUsageRows := s4.2.skillUsageRows ++ skillRows })
  let s6 :=
    if obsRows.length = 0 then (false, s5.2)
    else if db.failLearningObsCreate then (true, s5.2)
    else (false, { s5.2 with observations := s5.2.observations ++ obsRows })
  (s1.1 || s2.1 || s3.1 || s4.1 || s5.1 || s6.1, s6.2)

/-- The orchestrator's `catch` block: best-effort failure observations (their
own try/catch swallows a write failure), then `task.update({status:
'failed'})` — whose own rejection, when injected, replaces the original
error — and re-raise. -/
def orchCatch (cfg : OrchConfig) (db : DbFlags) (taskId : String)
    (runResults : List AgentRunResult) (taskCategory : String)
    (err : OrchError) (st : OrchStore) :
    Except OrchError OrchestrationResult × OrchStore :=
  let st1 :=
    if cfg.enableLearning && decide (0 < runResults.length) then
      let failureRows := buildLearningObservationRows taskId none runResults taskCategory
      if decide (0 < failureRows.length) && !db.failLearningObsCreate then
        { st with observations := st.observations ++ failureRows }
      else st
    else st
  if db.failTaskUpdateFailed then (.error .dbError, st1)
  else (.error err, { st1 with taskStatus := TaskStatus.failed })

/-- Orchestrator `orchestrateTask` as a state transformer.

Inputs that the source derives from external collaborators are parameters:
`judgeMode`, `criteriaWeights`, `taskCategory` and `objectiveMode` stand for
the resolved domain plan (`resolveDomainPlan`), `results` is the settled
outcome of the concurrent agent fan-out (each agent's failure already folded
into a failure-flagged `AgentRunResult`, as the source's per-agent
try/catch guarantees), and `oracles` are the generative judge call outcomes,
one per panel.  Progress events (`onUpdate`), prompt enrichment and logging
have no observable effect on the modelled state and are omitted. -/
def orchestrateTask (cfg : OrchConfig) (taskId : String)
    (judgeMode : JudgeMode) (criteriaWeights : Option JudgeWeightsInput)
    (taskCategory : String) (objectiveMode : Option ObjectiveJudgeMode)
    (results : List AgentRunResult)
    (oracles : List (Option ParsedJudgeResponse)) (db : DbFlags)
    (st0 : OrchStore) : Except OrchError OrchestrationResult × OrchStore :=
  if !cfg.hasApiKey then orchCatch cfg db taskId [] taskCategory .missingApiKey st0
  else if db.failTaskUpdateRunning then orchCatch cfg db taskId [] taskCategory .dbError st0
  else
    let st1 := { st0 with taskStatus := TaskStatus.running }
    let runResults := results
    let successfulResults := successfulOf results
    let normalizedWeights := normalizeJudgeWeights criteriaWeights
    let judgeOutcome : Except OrchError JudgeResult :=
      if judgeMode = .consensus ∧ 1 < successfulResults.length then
        let panelRuns := (List.range CONSENSUS_PANEL_COUNT).map (fun index =>
          judgeResponses results
            { criteriaWeights := some normalizedWeights.toInput
              panelId := some (index + 1)
              taskCategory := some taskCategory
              objectiveMode := objectiveMode
              hasApiKey := true
              oracle := (oracles.get? index).getD none })
        match collectExcepts panelRuns with
        | .error e => .error e
        | .ok rs =>
          .ok (aggregateConsensusJudgeRuns (rs.map (·.1)) successfulResults
            normalizedWeights)
      else
        (judgeResponses results
          { criteriaWeights := some normalizedWeights.toInput
            panelId := none
            taskCategory := some taskCategory
            objectiveMode := objectiveMode
            hasApiKey := true
            oracle := (oracles.get? 0).getD none }).map (·.1)
    match judgeOutcome with
    | .error e => orchCatch cfg db taskId runResults taskCategory e st1
    | .ok judgeResult =>
      let confidenceGate := evaluateConfidenceGate cfg.gate judgeResult
      match results.find? (fun r => r.agentId == judgeResult.winner) with
      | none => orchCatch cfg db taskId runResults taskCategory .winnerNotFound st1
      | some winnerResult =>
        let winnerScore := judgeResult.scores.find?
          (fun score => score.agentId == winnerResult.agentId)
        let normalizedWinnerScore : ℚ :=
          (((winnerScore.map (·.total)).getD 20 : ℤ) : ℚ) / 40
        let baselineScore := computeCategoryBaseline st1 taskCategory
        let winnerLift := toFixedQ 2
          ((((winnerScore.map (·.total)).getD 20 : ℤ) : ℚ) - baselineScore)
        let skillRows := results.flatMap (fun r =>
          r.skillUsage.map (fun u =>
            { taskId := taskId, agentId := r.agentId, skillName := u.name }))
        let obsRows := buildLearningObservationRows taskId (some judgeResult)
          results taskCategory
        let batch := runBatchWrites db taskId results winnerResult judgeResult
          normalizedWinnerScore obsRows skillRows st1
        if batch.1 then orchCatch cfg db taskId runResults taskCategory .dbError batch.2
        else
          let st3 :=
            if cfg.enableLearning && confidenceGate.passed then
              extractAndSaveLearnings winnerResult judgeResult results
                taskCategory winnerLift db batch.2
            else batch.2
          let result : OrchestrationResult :=
            { taskId := taskId
              winner := { agentId := winnerResult.agentId
                          persona := winnerResult.persona
                          tokensUsed := winnerResult.tokensUsed
                          timeMs := winnerResult.timeMs
                          judgeScore := winnerScore.map (·.total) }
              judgeResult := judgeResult
              confidenceGate := confidenceGate
              results := results }
          (.ok result,
            { st3 with cacheKeys := st3.cacheKeys ++ ["task:" ++ taskId ++ ":result"] })

/-- A successful agent with a distinctive response (concrete test data). -/
def agentA : AgentRunResult :=
  { agentId := "agent-1", response := "alpha beta gamma delta"
    reasoning := [{ step := 1, thought := "t1", confidence := 9 / 10 }]
    tokensUsed := 10, timeMs := 5, success := true, error := none
    persona := "The Analyst", skillUsage := []
    telemetry := { toolCallCount := 0, successfulToolCalls := 0
                   verificationSteps := 0, usedSearchFirst := false
                   toolSequence := [] } }

/-- A second successful agent with a disjoint response (concrete test data). -/
def agentB : AgentRunResult :=
  { agentId := "agent-2", response := "epsilon zeta eta theta"
    reasoning := [{ step := 1, thought := "u1", confidence := 9 / 10 }]
    tokensUsed := 10, timeMs := 5, success := true, error := none
    persona := "The Lateral Thinker", skillUsage := []
    telemetry := { toolCallCount := 0, successfulToolCalls := 0
                   verificationSteps := 0, usedSearchFirst := false
                   toolSequence := [] } }

/-- A near-duplicate of `agentA` under a different id (same response text). -/
def agentATwin : AgentRunResult := { agentA with agentId := "agent-2" }

/-- A flat judge score record with all four metrics `v` and total `t`. -/
def mkScore (a : String) (v : ℚ) (t : ℤ) : JudgeScore :=
  { agentId := a, accuracy := v, completeness := v, clarity := v, insight := v
    total := t, baseTotal := t, diversityPenaltyApplied := false
    maxSimilarity := 0 }

/-- The expected penalized score of the witness scenario: two agents with
identical text, similarity 1, baseTotal 32 → total 26 (spec Scenario C). -/
def penalizedWitnessScore : JudgeScore :=
  { agentId := "agent-1", accuracy := 8, completeness := 8, clarity := 8
    insight := 8, total := 26, baseTotal := 32
    diversityPenaltyApplied := true, maxSimilarity := 1 }

/-- A weight vector that sums exactly to 1 but is not a fixed point of
normalization: three components round up at the 6th decimal, so the
re-normalized components shift by one ulp. -/
def xBadVec : JudgeWeights :=
  { accuracy := 7000006 / 10000000, completeness := 1000006 / 10000000
    clarity := 1000006 / 10000000, insight := 999982 / 10000000 }

/-- A lone successful agent on a coding-domain task (concrete test data). -/
def codingAgent : AgentRunResult :=
  { agentId := "agent-1", response := "ok", reasoning := [], tokensUsed := 3
    timeMs := 2, success := true, error := none, persona := "The Analyst"
    skillUsage := []
    telemetry := { toolCallCount := 0, successfulToolCalls := 0
                   verificationSteps := 0, usedSearchFirst := false
                   toolSequence := [] } }

/-- Three concrete judge panels over two agents: panels 1 and 2 pick
`agent-1`, panel 3 picks `agent-2` (concrete test data). -/
def mkPanel (pid : ℕ) (w : String) (v1 : ℚ) (t1 : ℤ) : JudgeResult :=
  { winner := w, scores := [mkScore "agent-1" v1 t1, mkScore "agent-2" 5 20]
    mode := .single, criteriaWeights := DEFAULT_CRITERIA_WEIGHTS
    panelId := some pid }

/-- The concrete 3-panel consensus input used in the C8 scenario. -/
def panels : List JudgeResult :=
  [mkPanel 1 "agent-1" 8 32, mkPanel 2 "agent-1" 9 36, mkPanel 3 "agent-2" 7 28]

/-- The empty persistence state (concrete test data). -/
def st0 : OrchStore :=
  { taskStatus := .pending, taskResults := [], strategies := [], judgeRows := []
    skillUsageRows := [], observations := [], learnings := [], nextLearningId := 0
    categoryHistory := [], cacheKeys := [] }

/-- A winning agent whose three reasoning steps all carry confidence 0.75 —
at or above 0.7 but below 0.8 (concrete test data). -/
def winner75 : AgentRunResult :=
  { agentId := "agent-1", response := "alpha beta gamma"
    reasoning := [{ step := 1, thought := "t1", confidence := 3 / 4 },
                  { step := 2, thought := "t2", confidence := 3 / 4 },
                  { step := 3, thought := "t3", confidence := 3 / 4 }]
    tokensUsed := 10, timeMs := 5, success := true, error := none
    persona := "The Analyst", skillUsage := []
    telemetry := { toolCallCount := 1, successfulToolCalls := 1
                   verificationSteps := 0, usedSearchFirst := true
                   toolSequence := ["web-search"] } }

/-- The judge verdict crowning `winner75` with total 30 (concrete data). -/
def jr75 : JudgeResult :=
  { winner := "agent-1", scores := [mkScore "agent-1" 8 30]
    mode := .single, criteriaWeights := DEFAULT_CRITERIA_WEIGHTS }

/-- The learning record created in the C9 witness scenario. -/
def recC9 : AgentLearning :=
  { id := 0, agentId := "agent-2"
    learnedPattern := "[The Analyst][general][tools:no-tools] t1"
    sourceAgent := "agent-1", taskCategory := "general", appliedCount := 1
    successCount := 1, successRate := 9 / 10, avgLift := 1, liftSamples := 1 }

/-- The judge verdict crowning `agentA` with total 36 (concrete data). -/
def jrHigh : JudgeResult :=
  { winner := "agent-1", scores := [mkScore "agent-1" 9 36, mkScore "agent-2" 5 20]
    mode := .single, criteriaWeights := DEFAULT_CRITERIA_WEIGHTS }

/-- Learning-enabled configuration with the default gate thresholds
(26 / 2 / 6.5), gate enabled (concrete test data). -/
def cfgA : OrchConfig :=
  { enableLearning := true
    gate := { enabled := true, minTotal := 26, minMargin := 2, minAccuracy := 13 / 2 }
    hasApiKey := true }

/-- Same configuration with learning disabled (concrete test data). -/
def cfgNoLearn : OrchConfig := { cfgA with enableLearning := false }

/-- A parsed judge response scoring agent-1 at 9s and agent-2 at 5s. -/
def parsedHigh : ParsedJudgeResponse :=
  { scores := [{ agentId := "agent-1", accuracy := 9, completeness := 9
                 clarity := 9, insight := 9 },
               { agentId := "agent-2", accuracy := 5, completeness := 5
                 clarity := 5, insight := 5 }]
    winner := "agent-1" }

/-- A failed agent run (concrete test data). -/
def failedAgent : AgentRunResult :=
  { agentA with success := false, error := some "boom", response := "" }

theorem jsRound_intCast (n : ℤ) : jsRound (n : ℚ) = n := by
  unfold jsRound
  rw [Int.floor_eq_iff]
  constructor
  · push_cast; linarith
  · push_cast; linarith

theorem jsRound_mono {a b : ℚ} (h : a ≤ b) : jsRound a ≤ jsRound b := by
  unfold jsRound
  exact Int.floor_le_floor (by linarith)

theorem jsRound_nonneg {a : ℚ} (h : 0 ≤ a) : 0 ≤ jsRound a := by
  unfold jsRound
  exact Int.floor_nonneg.mpr (by linarith)

/-- The map `toFixedQ d` is the identity on integers (used for the gate margin, which is
an integer difference of two integer totals). -/
theorem toFixedQ_intCast (d : ℕ) (n : ℤ) : toFixedQ d (n : ℚ) = n := by
  unfold toFixedQ
  have hpow : ((10 : ℚ) ^ d) ≠ 0 := by positivity
  have : ((n : ℚ) * 10 ^ d) = ((n * 10 ^ d : ℤ) : ℚ) := by push_cast; ring
  rw [this, jsRound_intCast]
  push_cast
  field_simp

/-- The rounding error of `toFixedQ d` is at most half an ulp, `1 / (2·10^d)`. -/
theorem abs_toFixedQ_sub_le (d : ℕ) (q : ℚ) :
    |toFixedQ d q - q| ≤ 1 / (2 * 10 ^ d) := by
  have hpow : (0 : ℚ) < 10 ^ d := by positivity
  set y := q * 10 ^ d with hy
  have h1 : (⌊y + 1 / 2⌋ : ℚ) ≤ y + 1 / 2 := Int.floor_le _
  have h2 : y + 1 / 2 - 1 < (⌊y + 1 / 2⌋ : ℚ) := Int.sub_one_lt_floor _
  have key : toFixedQ d q - q = ((⌊y + 1 / 2⌋ : ℚ) - y) / 10 ^ d := by
    unfold toFixedQ jsRound
    rw [hy]
    field_simp
    ring
  rw [key, abs_div, abs_of_pos hpow, div_le_div_iff hpow (by positivity)]
  have habs : |(⌊y + 1 / 2⌋ : ℚ) - y| ≤ 1 / 2 := abs_le.mpr ⟨by linarith, by linarith⟩
  nlinarith [habs, hpow]

theorem qCmp_self (a : ℚ) : qCmp a a = .eq := by simp [qCmp]

theorem iCmp_self (a : ℤ) : iCmp a a = .eq := by simp [iCmp]

theorem qCmp_eq_lt {a b : ℚ} (h : a < b) : qCmp a b = .lt := by simp [qCmp, h]

theorem qCmp_eq_gt {a b : ℚ} (h : b < a) : qCmp a b = .gt := by
  simp [qCmp, h, not_lt_of_gt h]

theorem sCmp_ne_eq {a b : String} (h : a ≠ b) : sCmp a b ≠ .eq := by
  rcases lt_or_gt_of_ne h with hlt | hgt
  · simp [sCmp, hlt]
  · simp [sCmp, hgt, not_lt_of_gt hgt]

theorem then_swap (o p : Ordering) : (o.then p).swap = o.swap.then p.swap := by
  cases o <;> cases p <;> rfl

theorem qCmp_swap (a b : ℚ) : qCmp a b = (qCmp b a).swap := by
  rcases lt_trichotomy a b with h | h | h
  · simp [qCmp, h, lt_asymm h, Ordering.swap]
  · simp [qCmp, h, lt_irrefl, Ordering.swap]
  · simp [qCmp, h, lt_asymm h, Ordering.swap]

theorem iCmp_swap (a b : ℤ) : iCmp a b = (iCmp b a).swap := by
  rcases lt_trichotomy a b with h | h | h
  · simp [iCmp, h, lt_asymm h, Ordering.swap]
  · simp [iCmp, h, lt_irrefl, Ordering.swap]
  · simp [iCmp, h, lt_asymm h, Ordering.swap]

theorem sCmp_swap (a b : String) : sCmp a b = (sCmp b a).swap := by
  rcases lt_trichotomy a b with h | h | h
  · simp [sCmp, h, lt_asymm h, Ordering.swap]
  · simp [sCmp, h, lt_irrefl, Ordering.swap]
  · simp [sCmp, h, lt_asymm h, Ordering.swap]

theorem orderingThen_eq_eq {o p : Ordering} : o.then p = .eq ↔ o = .eq ∧ p = .eq := by
  cases o <;> simp [Ordering.then]

/-- Core behaviour of `applyDiversityPenalty`, shared by several claims:
given in-range base totals, every output score has an integer total in
[0,40] that equals `baseTotal` below the 0.72 similarity threshold and
`round(baseTotal * 0.8)` at or above it. -/
theorem diversityPenalty_spec_aux (scores : List JudgeScore)
    (results : List AgentRunResult)
    (hb : ∀ s ∈ scores, 0 ≤ s.baseTotal ∧ s.baseTotal ≤ 40) :
    ∀ s' ∈ applyDiversityPenalty scores results,
      (0 ≤ s'.total ∧ s'.total ≤ 40) ∧
      (s'.maxSimilarity < 72 / 100 → s'.total = s'.baseTotal) ∧
      (72 / 100 ≤ s'.maxSimilarity →
        s'.total = jsRound ((s'.baseTotal : ℚ) * (8 / 10))) := by
  intro s' hmem
  unfold applyDiversityPenalty at hmem
  rw [List.mem_map] at hmem
  obtain ⟨s, hs, heq⟩ := hmem
  obtain ⟨h0, h40⟩ := hb s hs
  subst heq
  dsimp only
  set ms := toFixedQ 4 ((alistGet (similarityByAgent results) s.agentId).getD 0) with hms
  by_cases hp : DIVERSITY_SIMILARITY_THRESHOLD ≤ ms
  · have hd : decide (DIVERSITY_SIMILARITY_THRESHOLD ≤ ms) = true := decide_eq_true hp
    simp only [hd, if_true]
    have hnn : 0 ≤ jsRound ((s.baseTotal : ℚ) * DIVERSITY_PENALTY_FACTOR) := by
      apply jsRound_nonneg
      have : (0 : ℚ) ≤ (s.baseTotal : ℚ) := by exact_mod_cast h0
      unfold DIVERSITY_PENALTY_FACTOR
      positivity
    have hmax : max 0 (jsRound ((s.baseTotal : ℚ) * DIVERSITY_PENALTY_FACTOR)) =
        jsRound ((s.baseTotal : ℚ) * DIVERSITY_PENALTY_FACTOR) := max_eq_right hnn
    refine ⟨⟨le_max_left _ _, ?_⟩, ?_, ?_⟩
    · rw [hmax]
      have hle : (s.baseTotal : ℚ) * DIVERSITY_PENALTY_FACTOR ≤ ((32 : ℤ) : ℚ) := by
        have : (s.baseTotal : ℚ) ≤ 40 := by exact_mod_cast h40
        unfold DIVERSITY_PENALTY_FACTOR
        push_cast
        linarith
      calc jsRound ((s.baseTotal : ℚ) * DIVERSITY_PENALTY_FACTOR)
          ≤ jsRound ((32 : ℤ) : ℚ) := jsRound_mono hle
        _ = 32 := jsRound_intCast 32
        _ ≤ 40 := by norm_num
    · intro hlt
      exact absurd hp (not_le_of_lt (by simpa [DIVERSITY_SIMILARITY_THRESHOLD] using hlt))
    · intro _
      rw [hmax]
      rfl
  · have hd : decide (DIVERSITY_SIMILARITY_THRESHOLD ≤ ms) = false :=
      decide_eq_false hp
    simp only [hd, if_false]
    refine ⟨⟨h0, h40⟩, fun _ => rfl, fun hge => ?_⟩
    exact absurd (by simpa [DIVERSITY_SIMILARITY_THRESHOLD] using hge) hp

/-- C2. For every judge score produced by `applyDiversityPenalty` from input
scores whose pre-penalty `baseTotal` lies in [0,40] (as every total computed
by `weightedTotal` from [0,10] metrics and unit-sum weights does), the
post-penalty `total` is an integer in [0,40]; when the recorded maximum
cross-agent token-set Jaccard similarity (`maxSimilarity`, the pairwise
maximum rounded to 4 decimals) is below 0.72 the total is exactly
`baseTotal`, and when it is at or above 0.72 the total is exactly
`round(baseTotal * 0.8)`. -/
theorem c2_diversity_penalty_spec (scores : List JudgeScore)
    (results : List AgentRunResult)
    (hb : ∀ s ∈ scores, 0 ≤ s.baseTotal ∧ s.baseTotal ≤ 40) :
    ∀ s' ∈ applyDiversityPenalty scores results,
      (0 ≤ s'.total ∧ s'.total ≤ 40) ∧
      (s'.maxSimilarity < 72 / 100 → s'.total = s'.baseTotal) ∧
      (72 / 100 ≤ s'.maxSimilarity →
        s'.total = jsRound ((s'.baseTotal : ℚ) * (8 / 10))) :=
  diversityPenalty_spec_aux scores results hb

/-- Witness for C2: concrete duplicate-text agents; the penalized score is in
the output and satisfies the proved properties. -/
theorem c2_diversity_penalty_spec_witness :
    penalizedWitnessScore ∈
      applyDiversityPenalty [mkScore "agent-1" 8 32, mkScore "agent-2" 5 20]
        [agentA, agentATwin] ∧
    ((0 ≤ penalizedWitnessScore.total ∧ penalizedWitnessScore.total ≤ 40) ∧
      (penalizedWitnessScore.maxSimilarity < 72 / 100 →
        penalizedWitnessScore.total = penalizedWitnessScore.baseTotal) ∧
      (72 / 100 ≤ penalizedWitnessScore.maxSimilarity →
        penalizedWitnessScore.total =
          jsRound ((penalizedWitnessScore.baseTotal : ℚ) * (8 / 10)))) :=
  ⟨by decide,
    c2_diversity_penalty_spec [mkScore "agent-1" 8 32, mkScore "agent-2" 5 20]
      [agentA, agentATwin] (by decide) penalizedWitnessScore (by decide)⟩

/-- C3. Winner resolution is governed by a total order: with equal totals the
higher accuracy wins regardless of list position (ties cascading through the
comparator), the comparator never declares two scores with distinct agent
ids equal (totality), and it is antisymmetric (`scoreCmp a b` is the swap of
`scoreCmp b a`), so sorting and taking the head is well-defined. -/
theorem c3_resolveWinner_total_order (s1 s2 : JudgeScore)
    (hid : s1.agentId ≠ "") (ht : s1.total = s2.total)
    (ha : s2.accuracy < s1.accuracy) :
    resolveWinner [s1, s2] = s1.agentId ∧ resolveWinner [s2, s1] = s1.agentId ∧
    (∀ a b : JudgeScore, a.agentId ≠ b.agentId → scoreCmp a b ≠ .eq) ∧
    (∀ a b : JudgeScore, scoreCmp a b = (scoreCmp b a).swap) := by
  have h12 : scoreCmp s1 s2 = .lt := by
    unfold scoreCmp
    rw [ht, iCmp_self, qCmp_eq_lt ha]
    rfl
  have h21 : scoreCmp s2 s1 = .gt := by
    unfold scoreCmp
    rw [ht, iCmp_self, qCmp_eq_gt ha]
    rfl
  refine ⟨?_, ?_, ?_, ?_⟩
  · simp [resolveWinner, sortByCmp, insertByCmp, h12, hid]
  · simp [resolveWinner, sortByCmp, insertByCmp, h21, hid]
  · intro a b hne heq
    unfold scoreCmp at heq
    rw [orderingThen_eq_eq] at heq
    rw [orderingThen_eq_eq] at heq
    have heq2 := heq.2.2
    rw [orderingThen_eq_eq] at heq2
    have heq3 := heq2.2
    rw [orderingThen_eq_eq] at heq3
    exact sCmp_ne_eq hne heq3.2
  · intro a b
    unfold scoreCmp
    simp only [then_swap, ← iCmp_swap, ← qCmp_swap, ← sCmp_swap]

/-- Witness for C3 at concrete scores: equal totals 30, accuracies 8 vs 7 —
the higher-accuracy agent wins in either list order. -/
theorem c3_resolveWinner_total_order_witness :
    resolveWinner [mkScore "agent-1" 8 30, mkScore "agent-2" 7 30] = "agent-1" ∧
    resolveWinner [mkScore "agent-2" 7 30, mkScore "agent-1" 8 30] = "agent-1" := by
  have h := c3_resolveWinner_total_order (mkScore "agent-1" 8 30)
    (mkScore "agent-2" 7 30) (by decide) (by decide) (by decide)
  exact ⟨h.1, h.2.1⟩

/-- Counterexample to C4's idempotence clause: `xBadVec` is already
normalized (components sum exactly to 1, all nonnegative), yet
`normalizeJudgeWeights` does not return it unchanged — and applying
`normalizeJudgeWeights` twice differs from applying it once, because the
6-decimal rounding of each component can move the sum off 1 and the second
division then re-rounds a component to a different value. -/
theorem c4_normalize_idempotence_counterexample :
    xBadVec.sum = 1 ∧ (0 ≤ xBadVec.accuracy ∧ 0 ≤ xBadVec.completeness ∧
      0 ≤ xBadVec.clarity ∧ 0 ≤ xBadVec.insight) ∧
    normalizeJudgeWeights (some xBadVec.toInput) ≠ xBadVec ∧
    normalizeJudgeWeights
        (some (normalizeJudgeWeights (some xBadVec.toInput)).toInput) ≠
      normalizeJudgeWeights (some xBadVec.toInput) := by
  exact ⟨by decide, by decide, by decide, by decide⟩

/-- C4 (amended). Normalization always yields components summing to 1 within
2·10⁻⁶ (half an ulp of the 6-decimal rounding per component); an input whose
safe components sum to zero or less falls back to the fixed default weights
(0.3, 0.3, 0.2, 0.2); and normalization returns its input unchanged whenever
that input has nonnegative components, each already at 6-decimal precision,
summing exactly to 1 (a sufficient condition only: other fixed points
exist) — exact idempotence on arbitrary normalized vectors fails (see the
counterexample). -/
theorem c4_normalize_weights_spec (input : Option JudgeWeightsInput) :
    |(normalizeJudgeWeights input).sum - 1| ≤ 2 / 1000000 ∧
    ((safeWeights input).accuracy + (safeWeights input).completeness +
        (safeWeights input).clarity + (safeWeights input).insight ≤ 0 →
      normalizeJudgeWeights input = DEFAULT_CRITERIA_WEIGHTS) ∧
    (∀ w : JudgeWeights, 0 ≤ w.accuracy → 0 ≤ w.completeness →
      0 ≤ w.clarity → 0 ≤ w.insight →
      toFixedQ 6 w.accuracy = w.accuracy →
      toFixedQ 6 w.completeness = w.completeness →
      toFixedQ 6 w.clarity = w.clarity → toFixedQ 6 w.insight = w.insight →
      w.sum = 1 → normalizeJudgeWeights (some w.toInput) = w) := by
  refine ⟨?_, ?_, ?_⟩
  · by_cases h : (safeWeights input).accuracy + (safeWeights input).completeness +
        (safeWeights input).clarity + (safeWeights input).insight ≤ 0
    · rw [normalizeJudgeWeights]
      rw [if_pos h]
      norm_num [JudgeWeights.sum, DEFAULT_CRITERIA_WEIGHTS]
    · rw [normalizeJudgeWeights]
      rw [if_neg h]
      have ht : (0 : ℚ) < (safeWeights input).accuracy + (safeWeights input).completeness +
          (safeWeights input).clarity + (safeWeights input).insight := lt_of_not_le h
      set t := (safeWeights input).accuracy + (safeWeights input).completeness +
          (safeWeights input).clarity + (safeWeights input).insight with hdef
      have hsum : (safeWeights input).accuracy / t + (safeWeights input).completeness / t +
          (safeWeights input).clarity / t + (safeWeights input).insight / t = 1 := by
        field_simp
      have e1 := abs_toFixedQ_sub_le 6 ((safeWeights input).accuracy / t)
      have e2 := abs_toFixedQ_sub_le 6 ((safeWeights input).completeness / t)
      have e3 := abs_toFixedQ_sub_le 6 ((safeWeights input).clarity / t)
      have e4 := abs_toFixedQ_sub_le 6 ((safeWeights input).insight / t)
      rw [JudgeWeights.sum]
      dsimp only
      rw [abs_le] at e1 e2 e3 e4 ⊢
      norm_num at e1 e2 e3 e4 ⊢
      constructor <;> linarith
  · intro h
    rw [normalizeJudgeWeights]
    rw [if_pos h]
  · intro w ha hc hcl hi ra rc rcl ri hsum
    obtain ⟨wa, wc, wcl, wi⟩ := w
    rw [JudgeWeights.sum] at hsum
    simp only at ha hc hcl hi ra rc rcl ri hsum
    rw [normalizeJudgeWeights]
    have hsafe : safeWeights (some (JudgeWeights.toInput ⟨wa, wc, wcl, wi⟩)) =
        ⟨wa, wc, wcl, wi⟩ := by
      simp [safeWeights, mergedWeights, JudgeWeights.toInput, ha, hc, hcl, hi]
    rw [hsafe]
    simp only [hsum]
    rw [if_neg (by norm_num)]
    simp [div_one, ra, rc, rcl, ri]

/-- Witness for C4 at concrete inputs: the all-zero vector falls back to the
defaults, whose components are 6-decimal, nonnegative and sum to 1, so
normalizing the defaults is a no-op; the tolerance bound holds there too. -/
theorem c4_normalize_weights_spec_witness :
    |(normalizeJudgeWeights (some ⟨some 0, some 0, some 0, some 0⟩)).sum - 1| ≤ 2 / 1000000 ∧
    normalizeJudgeWeights (some ⟨some 0, some 0, some 0, some 0⟩) = DEFAULT_CRITERIA_WEIGHTS ∧
    normalizeJudgeWeights (some DEFAULT_CRITERIA_WEIGHTS.toInput) = DEFAULT_CRITERIA_WEIGHTS :=
  ⟨(c4_normalize_weights_spec (some ⟨some 0, some 0, some 0, some 0⟩)).1,
    (c4_normalize_weights_spec (some ⟨some 0, some 0, some 0, some 0⟩)).2.1 (by decide),
    (c4_normalize_weights_spec (some DEFAULT_CRITERIA_WEIGHTS.toInput)).2.2
      DEFAULT_CRITERIA_WEIGHTS (by decide) (by decide) (by decide) (by decide)
      (by decide) (by decide) (by decide) (by decide) (by decide)⟩

theorem gateMargin_int (jr : JudgeResult) : ∃ m : ℤ, gateMargin jr = (m : ℚ) := by
  unfold gateMargin gateWinnerTotal
  cases h : (gateSorted jr).get? 1 with
  | none => exact ⟨_, rfl⟩
  | some s =>
    refine ⟨((((gateSorted jr).get? 0).map (·.total)).getD 0) - s.total, ?_⟩
    push_cast
    ring

theorem toFixedQ_gateMargin (jr : JudgeResult) :
    toFixedQ 2 (gateMargin jr) = gateMargin jr := by
  obtain ⟨m, hm⟩ := gateMargin_int jr
  rw [hm, toFixedQ_intCast]

/-- Shared specification of the enabled confidence gate: the pass flag, the
violation list in the reason, and the recorded numeric fields, all in terms
of the winner/margin/accuracy values read from the sorted scores. -/
theorem gate_enabled_spec (cfg : GateConfig) (jr : JudgeResult)
    (hcfg : cfg.enabled = true) :
    ((evaluateConfidenceGate cfg jr).passed = false ↔
      (gateWinnerTotal jr < cfg.minTotal ∨ gateMargin jr < cfg.minMargin ∨
        gateWinnerAccuracy jr < cfg.minAccuracy)) ∧
    (∀ vs, (evaluateConfidenceGate cfg jr).reason = .failedReason vs →
      ((GateViolation.totalBelow ∈ vs ↔ gateWinnerTotal jr < cfg.minTotal) ∧
       (GateViolation.marginBelow ∈ vs ↔ gateMargin jr < cfg.minMargin) ∧
       (GateViolation.accuracyBelow ∈ vs ↔ gateWinnerAccuracy jr < cfg.minAccuracy))) ∧
    (evaluateConfidenceGate cfg jr).marginToSecond = gateMargin jr ∧
    (evaluateConfidenceGate cfg jr).winnerTotal = gateWinnerTotal jr ∧
    (evaluateConfidenceGate cfg jr).winnerAccuracy = gateWinnerAccuracy jr := by
  unfold evaluateConfidenceGate
  by_cases h1 : gateWinnerTotal jr < cfg.minTotal <;>
    by_cases h2 : gateMargin jr < cfg.minMargin <;>
      by_cases h3 : gateWinnerAccuracy jr < cfg.minAccuracy <;>
        simp [hcfg, h1, h2, h3, toFixedQ_gateMargin]

theorem gate_disabled_spec (cfg : GateConfig) (jr : JudgeResult)
    (hcfg : cfg.enabled = false) :
    (evaluateConfidenceGate cfg jr).passed = true ∧
    (evaluateConfidenceGate cfg jr).reason = .disabledReason ∧
    (evaluateConfidenceGate cfg jr).marginToSecond = gateMargin jr := by
  unfold evaluateConfidenceGate
  simp [hcfg]

/-- C7. The confidence gate decision: when disabled it always passes; when
enabled it fails exactly when at least one of the three thresholds (minimum
total, minimum margin over the runner-up, minimum accuracy) is violated, and
on failure its reason lists precisely the violated thresholds. -/
theorem c7_confidence_gate_spec (cfg : GateConfig) (jr : JudgeResult) :
    (cfg.enabled = false → (evaluateConfidenceGate cfg jr).passed = true ∧
      (evaluateConfidenceGate cfg jr).reason = .disabledReason) ∧
    (cfg.enabled = true →
      ((evaluateConfidenceGate cfg jr).passed = false ↔
        ((evaluateConfidenceGate cfg jr).winnerTotal < cfg.minTotal ∨
         (evaluateConfidenceGate cfg jr).marginToSecond < cfg.minMargin ∨
         (evaluateConfidenceGate cfg jr).winnerAccuracy < cfg.minAccuracy)) ∧
      (∀ vs, (evaluateConfidenceGate cfg jr).reason = .failedReason vs →
        ((GateViolation.totalBelow ∈ vs ↔
           (evaluateConfidenceGate cfg jr).winnerTotal < cfg.minTotal) ∧
         (GateViolation.marginBelow ∈ vs ↔
           (evaluateConfidenceGate cfg jr).marginToSecond < cfg.minMargin) ∧
         (GateViolation.accuracyBelow ∈ vs ↔
           (evaluateConfidenceGate cfg jr).winnerAccuracy < cfg.minAccuracy)))) := by
  constructor
  · intro hcfg
    exact ⟨(gate_disabled_spec cfg jr hcfg).1, (gate_disabled_spec cfg jr hcfg).2.1⟩
  · intro hcfg
    obtain ⟨hiff, hreason, hm, hwt, hwa⟩ := gate_enabled_spec cfg jr hcfg
    rw [hm, hwt, hwa]
    exact ⟨hiff, hreason⟩

/-- Witness for C7: enabled gate with thresholds (26, 2, 6.5) over a single
score of total 10 and accuracy 3 — the gate fails and the reason lists the
total and accuracy violations but not the margin violation. -/
theorem c7_confidence_gate_spec_witness :
    ((evaluateConfidenceGate ⟨true, 26, 2, 13 / 2⟩
        { winner := "agent-1", scores := [mkScore "agent-1" 3 10]
          mode := .single, criteriaWeights := DEFAULT_CRITERIA_WEIGHTS }).passed = false ↔
      ((evaluateConfidenceGate ⟨true, 26, 2, 13 / 2⟩
        { winner := "agent-1", scores := [mkScore "agent-1" 3 10]
          mode := .single, criteriaWeights := DEFAULT_CRITERIA_WEIGHTS }).winnerTotal < 26 ∨
       (evaluateConfidenceGate ⟨true, 26, 2, 13 / 2⟩
        { winner := "agent-1", scores := [mkScore "agent-1" 3 10]
          mode := .single, criteriaWeights := DEFAULT_CRITERIA_WEIGHTS }).marginToSecond < 2 ∨
       (evaluateConfidenceGate ⟨true, 26, 2, 13 / 2⟩
        { winner := "agent-1", scores := [mkScore "agent-1" 3 10]
          mode := .single, criteriaWeights := DEFAULT_CRITERIA_WEIGHTS }).winnerAccuracy < 13 / 2)) :=
  ((c7_confidence_gate_spec ⟨true, 26, 2, 13 / 2⟩
    { winner := "agent-1", scores := [mkScore "agent-1" 3 10]
      mode := .single, criteriaWeights := DEFAULT_CRITERIA_WEIGHTS }).2 rfl).1

/-- C10. When the judge result carries exactly one score there is no
runner-up and `marginToSecond` is the winner's own total, so the margin
threshold is satisfied (no `marginBelow` violation can be reported) exactly
when that total reaches `minMargin`. -/
theorem c10_margin_without_runner_up (cfg : GateConfig) (jr : JudgeResult)
    (s : JudgeScore) (hs : jr.scores = [s]) :
    (evaluateConfidenceGate cfg jr).marginToSecond = (s.total : ℚ) ∧
    (cfg.minMargin ≤ (s.total : ℚ) →
      ∀ vs, (evaluateConfidenceGate cfg jr).reason = .failedReason vs →
        GateViolation.marginBelow ∉ vs) := by
  have hsorted : gateSorted jr = [s] := by
    unfold gateSorted
    rw [hs]
    rfl
  have hmargin : gateMargin jr = (s.total : ℚ) := by
    unfold gateMargin gateWinnerTotal
    rw [hsorted]
    rfl
  constructor
  · cases hcfg : cfg.enabled with
    | false => rw [(gate_disabled_spec cfg jr hcfg).2.2, hmargin]
    | true => rw [(gate_enabled_spec cfg jr hcfg).2.2.1, hmargin]
  · intro hle vs hreason
    cases hcfg : cfg.enabled with
    | false =>
      rw [(gate_disabled_spec cfg jr hcfg).2.1] at hreason
      exact absurd hreason (by simp)
    | true =>
      have hmem := ((gate_enabled_spec cfg jr hcfg).2.1 vs hreason).2.1
      rw [hmargin] at hmem
      intro hin
      exact absurd (hmem.mp hin) (not_lt_of_le hle)

/-- Witness for C10: a lone score of total 30 against minMargin 2 — the
margin equals 30 and no margin violation is reported on the failing gate
(the gate fails only on the accuracy threshold there). -/
theorem c10_margin_without_runner_up_witness :
    (evaluateConfidenceGate ⟨true, 26, 2, 13 / 2⟩
      { winner := "agent-1", scores := [mkScore "agent-1" 3 30]
        mode := .single, criteriaWeights := DEFAULT_CRITERIA_WEIGHTS }).marginToSecond =
      ((30 : ℤ) : ℚ) ∧
    (∀ vs, (evaluateConfidenceGate ⟨true, 26, 2, 13 / 2⟩
      { winner := "agent-1", scores := [mkScore "agent-1" 3 30]
        mode := .single, criteriaWeights := DEFAULT_CRITERIA_WEIGHTS }).reason = .failedReason vs →
      GateViolation.marginBelow ∉ vs) :=
  ⟨(c10_margin_without_runner_up ⟨true, 26, 2, 13 / 2⟩
      { winner := "agent-1", scores := [mkScore "agent-1" 3 30]
        mode := .single, criteriaWeights := DEFAULT_CRITERIA_WEIGHTS }
      (mkScore "agent-1" 3 30) rfl).1,
    (c10_margin_without_runner_up ⟨true, 26, 2, 13 / 2⟩
      { winner := "agent-1", scores := [mkScore "agent-1" 3 30]
        mode := .single, criteriaWeights := DEFAULT_CRITERIA_WEIGHTS }
      (mkScore "agent-1" 3 30) rfl).2 (by decide)⟩

/-- Counterexample to C6's "this holds for every task" clause: on a coding
task the single-success path still applies the objective coding correction,
so the lone winner's metrics are not all 5 and the default-weight total is
not 20 — here accuracy 4.33 and total 19 (objective score 2.6 blended in). -/
theorem c6_single_success_counterexample :
    (judgeResponses [codingAgent] { taskCategory := some "coding" }).toOption.map
        (fun p => (p.1.winner, p.1.scores.map (·.accuracy), p.1.scores.map (·.total), p.2)) =
      some ("agent-1", [433 / 100], [19], false) ∧
    (433 / 100 : ℚ) ≠ 5 ∧ (19 : ℤ) ≠ jsRound (5 * 1 * 4) := by
  exact ⟨by decide, by decide, by decide⟩

/-- C6 (amended). Whenever exactly one agent succeeds with non-empty output
and the resolved objective mode is `none` (every non-coding task), that
agent wins automatically with every metric 5 and total computed from the
configured weights — 20 for the default weights (0.3, 0.3, 0.2, 0.2) — and
no judge scoring call is made.  On coding tasks the fallback 5s are further
blended with the objective score (see the counterexample). -/
theorem c6_single_success_auto_win (results : List AgentRunResult)
    (options : JudgeOptions) (r : AgentRunResult)
    (hobj : resolveObjectiveMode options.objectiveMode options.taskCategory = .noneMode)
    (hone : successfulOf results = [r]) :
    judgeResponses results options =
      .ok ({ winner := r.agentId
             scores := [fallbackScore r.agentId (normalizeJudgeWeights options.criteriaWeights)]
             mode := .single
             criteriaWeights := normalizeJudgeWeights options.criteriaWeights
             panelId := options.panelId }, false) ∧
    (fallbackScore r.agentId (normalizeJudgeWeights options.criteriaWeights)).accuracy = 5 ∧
    (fallbackScore r.agentId (normalizeJudgeWeights options.criteriaWeights)).completeness = 5 ∧
    (fallbackScore r.agentId (normalizeJudgeWeights options.criteriaWeights)).clarity = 5 ∧
    (fallbackScore r.agentId (normalizeJudgeWeights options.criteriaWeights)).insight = 5 ∧
    (fallbackScore r.agentId (normalizeJudgeWeights options.criteriaWeights)).total =
      weightedTotal (normalizeJudgeWeights options.criteriaWeights)
        { accuracy := 5, completeness := 5, clarity := 5, insight := 5 } ∧
    weightedTotal DEFAULT_CRITERIA_WEIGHTS
      { accuracy := 5, completeness := 5, clarity := 5, insight := 5 } = 20 := by
  refine ⟨?_, rfl, rfl, rfl, rfl, rfl, by decide⟩
  unfold judgeResponses
  rw [hone, hobj]
  simp

/-- Witness for C6: one successful agent, default options — the automatic
fallback verdict with total 20 and no judge call. -/
theorem c6_single_success_auto_win_witness :
    judgeResponses [agentA] {} =
      .ok ({ winner := agentA.agentId
             scores := [fallbackScore agentA.agentId (normalizeJudgeWeights none)]
             mode := .single
             criteriaWeights := normalizeJudgeWeights none
             panelId := none }, false) ∧
    weightedTotal DEFAULT_CRITERIA_WEIGHTS
      { accuracy := 5, completeness := 5, clarity := 5, insight := 5 } = 20 := by
  have h := c6_single_success_auto_win [agentA] {} agentA rfl rfl
  exact ⟨h.1, h.2.2.2.2.2.2⟩

/-- Counterexample to C8's panel-agreement figure: with 2 of 3 panels
agreeing with the final aggregated winner, the recorded `panelAgreement` is
the vote fraction rounded to 4 decimal places, 0.6667 — not the claimed
0.667, and not exactly 2/3 either. -/
theorem c8_panel_agreement_counterexample :
    (aggregateConsensusJudgeRuns panels [agentA, agentB]
        DEFAULT_CRITERIA_WEIGHTS).winner = "agent-1" ∧
    (panels.filter (fun run => run.winner = "agent-1")).length = 2 ∧
    panels.length = 3 ∧
    (aggregateConsensusJudgeRuns panels [agentA, agentB]
        DEFAULT_CRITERIA_WEIGHTS).panelAgreement = some (6667 / 10000) ∧
    (6667 / 10000 : ℚ) ≠ 667 / 1000 ∧ (6667 / 10000 : ℚ) ≠ 2 / 3 := by
  exact ⟨by decide, by decide, by decide, by decide, by decide, by decide⟩

/-- C8 (amended). In consensus mode each of the four metrics per agent is
aggregated as the (2-decimal-rounded) median across the panel runs,
`baseTotal` and `total` are recomputed from those medians, the diversity
penalty is applied exactly once — to the aggregated scores — and
`panelAgreement` is the fraction of panels whose own single-judge winner
equals the final aggregated winner, rounded to 4 decimal places (2 of 3
panels agreeing yields 0.6667). -/
theorem c8_consensus_aggregation_spec (judgeRuns : List JudgeResult)
    (successfulResults : List AgentRunResult) (w : JudgeWeights) :
    (aggregateConsensusJudgeRuns judgeRuns successfulResults w).scores =
      applyDiversityPenalty
        ((successfulResults.map (·.agentId)).map (consensusMedianScore judgeRuns w))
        successfulResults ∧
    (∀ a : String,
      (consensusMedianScore judgeRuns w a).accuracy =
        toFixedQ 2 (median ((judgeRuns.filterMap
          (fun run => run.scores.find? (fun s => s.agentId = a))).map (·.accuracy))) ∧
      (consensusMedianScore judgeRuns w a).completeness =
        toFixedQ 2 (median ((judgeRuns.filterMap
          (fun run => run.scores.find? (fun s => s.agentId = a))).map (·.completeness))) ∧
      (consensusMedianScore judgeRuns w a).clarity =
        toFixedQ 2 (median ((judgeRuns.filterMap
          (fun run => run.scores.find? (fun s => s.agentId = a))).map (·.clarity))) ∧
      (consensusMedianScore judgeRuns w a).insight =
        toFixedQ 2 (median ((judgeRuns.filterMap
          (fun run => run.scores.find? (fun s => s.agentId = a))).map (·.insight))) ∧
      (consensusMedianScore judgeRuns w a).baseTotal =
        computeWeightedTotal w
          { accuracy := (consensusMedianScore judgeRuns w a).accuracy
            completeness := (consensusMedianScore judgeRuns w a).completeness
            clarity := (consensusMedianScore judgeRuns w a).clarity
            insight := (consensusMedianScore judgeRuns w a).insight } ∧
      (consensusMedianScore judgeRuns w a).total =
        (consensusMedianScore judgeRuns w a).baseTotal) ∧
    (aggregateConsensusJudgeRuns judgeRuns successfulResults w).winner =
      resolveWinner (aggregateConsensusJudgeRuns judgeRuns successfulResults w).scores ∧
    (aggregateConsensusJudgeRuns judgeRuns successfulResults w).panelAgreement =
      some (toFixedQ 4
        (((judgeRuns.filter (fun run => run.winner =
            (aggregateConsensusJudgeRuns judgeRuns successfulResults w).winner)).length : ℚ) /
          max 1 (judgeRuns.length : ℚ))) ∧
    ((∀ s ∈ (successfulResults.map (·.agentId)).map (consensusMedianScore judgeRuns w),
        0 ≤ s.baseTotal ∧ s.baseTotal ≤ 40) →
      ∀ s' ∈ (aggregateConsensusJudgeRuns judgeRuns successfulResults w).scores,
        (0 ≤ s'.total ∧ s'.total ≤ 40) ∧
        (s'.maxSimilarity < 72 / 100 → s'.total = s'.baseTotal) ∧
        (72 / 100 ≤ s'.maxSimilarity →
          s'.total = jsRound ((s'.baseTotal : ℚ) * (8 / 10)))) := by
  refine ⟨rfl, fun a => ⟨rfl, rfl, rfl, rfl, rfl, rfl⟩, rfl, rfl, ?_⟩
  intro hb s' hmem
  exact diversityPenalty_spec_aux _ successfulResults hb s' hmem

/-- Witness for C8 at the concrete 3-panel scenario: the aggregated agent-1
score has median metrics 8 and penalty-free total 32, the bound hypothesis
holds, and the aggregation equations are all satisfied there. -/
theorem c8_consensus_aggregation_spec_witness :
    (aggregateConsensusJudgeRuns panels [agentA, agentB]
        DEFAULT_CRITERIA_WEIGHTS).scores =
      applyDiversityPenalty
        (([agentA, agentB].map (·.agentId)).map (consensusMedianScore panels DEFAULT_CRITERIA_WEIGHTS))
        [agentA, agentB] ∧
    (consensusMedianScore panels DEFAULT_CRITERIA_WEIGHTS "agent-1").accuracy =
      toFixedQ 2 (median ((panels.filterMap
        (fun run => run.scores.find? (fun s => s.agentId = "agent-1"))).map (·.accuracy))) ∧
    ((0 ≤ (mkScore "agent-1" 8 32).total ∧ (mkScore "agent-1" 8 32).total ≤ 40) ∧
      ((mkScore "agent-1" 8 32).maxSimilarity < 72 / 100 →
        (mkScore "agent-1" 8 32).total = (mkScore "agent-1" 8 32).baseTotal) ∧
      (72 / 100 ≤ (mkScore "agent-1" 8 32).maxSimilarity →
        (mkScore "agent-1" 8 32).total =
          jsRound (((mkScore "agent-1" 8 32).baseTotal : ℚ) * (8 / 10)))) :=
  ⟨(c8_consensus_aggregation_spec panels [agentA, agentB] DEFAULT_CRITERIA_WEIGHTS).1,
    ((c8_consensus_aggregation_spec panels [agentA, agentB] DEFAULT_CRITERIA_WEIGHTS).2.1 "agent-1").1,
    (c8_consensus_aggregation_spec panels [agentA, agentB]
        DEFAULT_CRITERIA_WEIGHTS).2.2.2.2 (by decide) (mkScore "agent-1" 8 32) (by decide)⟩

/-- Counterexample to C9's claimed ≥0.7 fallback: when learning runs for a
winner whose three steps all have confidence 0.75, the claimed cascade would
select all three (they pass the ≥0.7 stage), but the learning path filters
at ≥0.8 only and falls back to the first two steps — the saved pattern
embeds `t1 -> t2` and omits `t3`. -/
theorem c9_pattern_selection_counterexample :
    (winner75.reasoning.filter
      (fun step => decide ((7 / 10 : ℚ) ≤ step.confidence))).length = 3 ∧
    ((extractAndSaveLearnings winner75 jr75 [winner75, agentB] "general" 1 {}
        st0).learnings.map (·.learnedPattern)) =
      ["[The Analyst][general][tools:web-search] t1 -> t2"] ∧
    "[The Analyst][general][tools:web-search] t1 -> t2" ≠
      "[The Analyst][general][tools:web-search] t1 -> t2 -> t3" := by
  exact ⟨by decide, by decide, by decide⟩

theorem upsertLearning_mem (winner : AgentRunResult) (cat pat : String)
    (q lift : ℚ) (acc : List AgentLearning × ℕ) (a : String)
    (rec : AgentLearning)
    (h : rec ∈ (upsertLearning winner cat pat q lift acc a).1) :
    rec ∈ acc.1 ∨ rec.learnedPattern = pat := by
  obtain ⟨learnings, nextId⟩ := acc
  unfold upsertLearning at h
  dsimp only at h
  cases hfind : learnings.find? (fun l =>
      l.agentId == a && l.sourceAgent == winner.agentId &&
      l.taskCategory == cat && strContains l.learnedPattern winner.persona) with
  | some existing =>
    rw [hfind] at h
    dsimp only at h
    rw [List.mem_map] at h
    obtain ⟨l, hl, heq⟩ := h
    by_cases hid : l.id = existing.id
    · rw [if_pos hid] at heq
      right
      rw [← heq]
    · rw [if_neg hid] at heq
      left
      rw [← heq]
      exact hl
  | none =>
    rw [hfind] at h
    dsimp only at h
    rw [List.mem_append] at h
    rcases h with h | h
    · exact .inl h
    · right
      rw [List.mem_singleton] at h
      rw [h]

theorem upsert_fold_mem (winner : AgentRunResult) (cat pat : String)
    (q lift : ℚ) (agents : List String) (acc : List AgentLearning × ℕ)
    (rec : AgentLearning)
    (h : rec ∈ (agents.foldl (upsertLearning winner cat pat q lift) acc).1) :
    rec ∈ acc.1 ∨ rec.learnedPattern = pat := by
  induction agents generalizing acc with
  | nil => exact .inl h
  | cons a rest ih =>
    rw [List.foldl_cons] at h
    rcases ih (upsertLearning winner cat pat q lift acc a) h with hmem | hpat
    · exact upsertLearning_mem winner cat pat q lift acc a rec hmem
    · exact .inr hpat

/-- C9 (amended). When learning runs, pattern extraction selects up to 3 of
the winner's reasoning steps with derived confidence ≥ 0.8 (the
`confidenceFloor` argument, 0.8 on the learning path), falling back to the
first 2 steps; there is no ≥0.7 stage and no failure/placeholder marker on
the learning path (those belong to the observation-row pattern builder,
`buildPattern`).  Every learning record the engine creates or updates gets
the tagged pattern string embedding the winner's persona, the task category
and the winner's tool-call sequence. -/
theorem c9_learning_pattern_spec :
    (∀ (r : AgentRunResult) (floor : ℚ),
      selectPatternThoughts r floor =
        if ((r.reasoning.filter (fun step => decide (floor ≤ step.confidence))).map
            (·.thought)) = [] then
          (r.reasoning.take 2).map (·.thought)
        else
          (((r.reasoning.filter (fun step => decide (floor ≤ step.confidence))).map
            (·.thought)).take 3)) ∧
    (∀ (winner : AgentRunResult) (jr : JudgeResult)
        (allResults : List AgentRunResult) (cat : String) (lift : ℚ)
        (db : DbFlags) (st : OrchStore) (rec : AgentLearning),
      rec ∈ (extractAndSaveLearnings winner jr allResults cat lift db st).learnings →
        rec ∈ st.learnings ∨
          rec.learnedPattern = "[" ++ winner.persona ++ "][" ++ cat ++ "][tools:" ++
            buildToolPath winner ++ "] " ++
            String.intercalate " -> " (selectPatternThoughts winner (4 / 5))) := by
  constructor
  · intro r floor
    unfold selectPatternThoughts
    cases h : r.reasoning.filter (fun step => decide (floor ≤ step.confidence)) with
    | nil => simp [h]
    | cons x xs => simp [h, List.map_take]
  · intro winner jr allResults cat lift db st rec hmem
    unfold extractAndSaveLearnings at hmem
    dsimp only at hmem
    repeat' split at hmem
    all_goals
      first
        | exact .inl hmem
        | exact upsert_fold_mem winner cat _ _ lift _ _ rec hmem

/-- Witness for C9: at the concrete high-confidence winner the selection
equation holds, and the record actually created carries the tagged pattern
(it is not a pre-existing record — the store started empty). -/
theorem c9_learning_pattern_spec_witness :
    (selectPatternThoughts agentA (4 / 5) =
      if ((agentA.reasoning.filter
          (fun step => decide ((4 / 5 : ℚ) ≤ step.confidence))).map (·.thought)) = [] then
        (agentA.reasoning.take 2).map (·.thought)
      else
        (((agentA.reasoning.filter
          (fun step => decide ((4 / 5 : ℚ) ≤ step.confidence))).map (·.thought)).take 3)) ∧
    (recC9 ∈ st0.learnings ∨
      recC9.learnedPattern = "[" ++ agentA.persona ++ "][" ++ "general" ++ "][tools:" ++
        buildToolPath agentA ++ "] " ++
        String.intercalate " -> " (selectPatternThoughts agentA (4 / 5))) :=
  ⟨c9_learning_pattern_spec.1 agentA (4 / 5),
    c9_learning_pattern_spec.2 agentA jrHigh [agentA, agentB] "general" 1 {} st0
      recC9 (by decide)⟩

theorem orchCatch_learnings (cfg : OrchConfig) (db : DbFlags) (taskId : String)
    (runResults : List AgentRunResult) (cat : String) (err : OrchError)
    (st : OrchStore) :
    (orchCatch cfg db taskId runResults cat err st).2.learnings = st.learnings := by
  unfold orchCatch
  dsimp only
  repeat' split
  all_goals rfl

theorem runBatchWrites_learnings (db : DbFlags) (taskId : String)
    (results : List AgentRunResult) (winnerResult : AgentRunResult)
    (judgeResult : JudgeResult) (nws : ℚ)
    (obsRows : List LearningObservationRow) (skillRows : List SkillUsageRow)
    (st : OrchStore) :
    (runBatchWrites db taskId results winnerResult judgeResult nws obsRows
      skillRows st).2.learnings = st.learnings := by
  unfold runBatchWrites
  dsimp only
  simp only [apply_ite Prod.snd, apply_ite OrchStore.learnings]
  simp only [ite_self]

theorem extractAndSaveLearnings_mutation (winner : AgentRunResult)
    (jr : JudgeResult) (allResults : List AgentRunResult) (cat : String)
    (lift : ℚ) (db : DbFlags) (st : OrchStore)
    (h : (extractAndSaveLearnings winner jr allResults cat lift db st).learnings ≠
      st.learnings) :
    ∃ ws, jr.scores.find? (fun s => s.agentId == winner.agentId) = some ws ∧
      LEARNING_SCORE_THRESHOLD ≤ ws.total := by
  unfold extractAndSaveLearnings at h
  dsimp only at h
  split at h
  · exact absurd rfl h
  · split at h
    · exact absurd rfl h
    · rename_i ws hws
      split at h
      · exact absurd rfl h
      · rename_i hlt
        exact ⟨ws, hws, not_lt.mp hlt⟩

theorem extract_store_mutation (winner : AgentRunResult) (jr : JudgeResult)
    (allResults : List AgentRunResult) (cat : String) (lift : ℚ)
    (db : DbFlags) (B stO : OrchStore)
    (h : (extractAndSaveLearnings winner jr allResults cat lift db B).learnings ≠
      stO.learnings)
    (hB : B.learnings = stO.learnings) :
    ∃ ws, jr.scores.find? (fun s => s.agentId == winner.agentId) = some ws ∧
      LEARNING_SCORE_THRESHOLD ≤ ws.total :=
  extractAndSaveLearnings_mutation winner jr allResults cat lift db B
    (by rw [hB]; exact h)

set_option maxHeartbeats 4000000 in
/-- C5. The learning store (`AgentLearning` rows) is mutated by an
orchestration run only when learning is enabled, the run returns its
result, the confidence gate passed, and the winner's judged total reached
the 25/40 learning threshold; in every other case — gate failed, total
below 25, learning disabled, or any error path — the learning rows are
untouched. -/
theorem c5_learning_gate_spec (cfg : OrchConfig) (taskId : String)
    (judgeMode : JudgeMode) (criteriaWeights : Option JudgeWeightsInput)
    (taskCategory : String) (objectiveMode : Option ObjectiveJudgeMode)
    (results : List AgentRunResult)
    (oracles : List (Option ParsedJudgeResponse)) (db : DbFlags)
    (st : OrchStore) :
    (orchestrateTask cfg taskId judgeMode criteriaWeights taskCategory
      objectiveMode results oracles db st).2.learnings ≠ st.learnings →
      cfg.enableLearning = true ∧
      ∃ r, (orchestrateTask cfg taskId judgeMode criteriaWeights taskCategory
          objectiveMode results oracles db st).1 = .ok r ∧
        r.confidenceGate.passed = true ∧
        ∃ ws ∈ r.judgeResult.scores, ws.agentId = r.winner.agentId ∧
          LEARNING_SCORE_THRESHOLD ≤ ws.total := by
  unfold orchestrateTask
  dsimp only
  repeat' split
  all_goals intro h
  all_goals
    try (simp only [orchCatch_learnings, runBatchWrites_learnings] at h; exact absurd rfl h)
  rename_i hApi hRun judgeOutcome judgeResult hjudge xfind winnerResult hfind hbatch hcond
  simp only [Bool.and_eq_true] at hcond
  dsimp only at h ⊢
  obtain ⟨ws, hws, hge⟩ := extract_store_mutation winnerResult judgeResult results
    taskCategory _ db _ st h (runBatchWrites_learnings _ _ _ _ _ _ _ _ _)
  have hpred := List.find?_some hws
  have hid : ws.agentId = winnerResult.agentId := eq_of_beq hpred
  exact ⟨hcond.1, _, rfl, hcond.2, ws, List.mem_of_find?_eq_some hws, hid, hge⟩

/-- Counterexample to C1: with a run whose only injected failure is the judge
verdict upsert of the step-9 batch, the orchestrator does not return its
result — it re-raises after marking the task failed.  The identical run
without the injected failure returns normally, so the persistence failure
alone caused the failed status and the propagated error. -/
theorem c1_persistence_counterexample :
    (orchestrateTask cfgNoLearn "task-1" .single none "general" none [agentA] []
      { failJudgeUpsert := true } st0).1 = .error .dbError ∧
    (orchestrateTask cfgNoLearn "task-1" .single none "general" none [agentA] []
      { failJudgeUpsert := true } st0).2.taskStatus = TaskStatus.failed ∧
    (orchestrateTask cfgNoLearn "task-1" .single none "general" none [agentA] []
      {} st0).1.isOk = true ∧
    (orchestrateTask cfgNoLearn "task-1" .single none "general" none [agentA] []
      {} st0).2.taskStatus = TaskStatus.completed := by
  exact ⟨rfl, rfl, rfl, rfl⟩

/-- C1 (amended). Only the learning-engine writes (`AgentLearning` upserts
inside `extractAndSaveLearnings`) and the failure-observation writes inside
the catch block are logged and never propagated: a failure of either leaves
the returned outcome unchanged (the task still completes, or the original
pipeline error is still the one re-raised).  A failure of the step-9 batched
writes (task status, per-agent results, strategy, judge verdict, skill
usage, learning observations) does propagate — see the counterexample. -/
theorem c1_persistence_amended : ∀ (bLearn bObs : Bool),
    (orchestrateTask cfgA "task-1" .single none "general" none [agentA, agentB]
      [some parsedHigh] { failAgentLearningWrite := bLearn } st0).1 =
      (orchestrateTask cfgA "task-1" .single none "general" none [agentA, agentB]
        [some parsedHigh] {} st0).1 ∧
    (orchestrateTask cfgA "task-1" .single none "general" none [agentA, agentB]
      [some parsedHigh] {} st0).1.isOk = true ∧
    (orchestrateTask cfgA "task-1" .single none "general" none [agentA, agentB]
      [some parsedHigh] { failAgentLearningWrite := bLearn } st0).2.taskStatus =
      TaskStatus.completed ∧
    (orchestrateTask cfgA "task-1" .single none "general" none [failedAgent] []
      { failLearningObsCreate := bObs } st0).1 = .error .noSuccessfulResults ∧
    (orchestrateTask cfgA "task-1" .single none "general" none [failedAgent] []
      { failLearningObsCreate := bObs } st0).2.taskStatus = TaskStatus.failed := by
  intro bLearn bObs
  cases bLearn <;> cases bObs <;> exact ⟨rfl, rfl, rfl, rfl, rfl⟩

/-- Witness for C5: the concrete two-agent run with a high-scoring oracle
does mutate the learning store, and the theorem then yields the gate-passed,
threshold-reaching verdict for that run. -/
theorem c5_learning_gate_spec_witness :
    cfgA.enableLearning = true ∧
    ∃ r, (orchestrateTask cfgA "task-1" .single none "general" none
        [agentA, agentB] [some parsedHigh] {} st0).1 = .ok r ∧
      r.confidenceGate.passed = true ∧
      ∃ ws ∈ r.judgeResult.scores, ws.agentId = r.winner.agentId ∧
        LEARNING_SCORE_THRESHOLD ≤ ws.total :=
  c5_learning_gate_spec cfgA "task-1" .single none "general" none
    [agentA, agentB] [some parsedHigh] {} st0 (by decide)

/-- Witness for C1 (amended): both swallowed-failure flags set to true. -/
theorem c1_persistence_amended_witness :
    (orchestrateTask cfgA "task-1" .single none "general" none [agentA, agentB]
      [some parsedHigh] { failAgentLearningWrite := true } st0).1 =
      (orchestrateTask cfgA "task-1" .single none "general" none [agentA, agentB]
        [some parsedHigh] {} st0).1 ∧
    (orchestrateTask cfgA "task-1" .single none "general" none [agentA, agentB]
      [some parsedHigh] {} st0).1.isOk = true ∧
    (orchestrateTask cfgA "task-1" .single none "general" none [agentA, agentB]
      [some parsedHigh] { failAgentLearningWrite := true } st0).2.taskStatus =
      TaskStatus.completed ∧
    (orchestrateTask cfgA "task-1" .single none "general" none [failedAgent] []
      { failLearningObsCreate := true } st0).1 = .error .noSuccessfulResults ∧
    (orchestrateTask cfgA "task-1" .single none "general" none [failedAgent] []
      { failLearningObsCreate := true } st0).2.taskStatus = TaskStatus.failed :=
  c1_persistence_amended true true
